import Mathlib

/-!
# PovRay exporter of Inkscape (`src/extension/internal/pov-out.cpp`)

A shallow embedding of the exporter `PovOutput` and of the two utility
functions in front of it, followed by theorems about them.

Conventions of the embedding

* A `String` stands for a C string, one `Char` per `char`.
* A `double` (and a `float`) is an exact rational number; comparisons are the
  ones of the source, rounding is not modelled.
* An `int` is an unbounded integer (the counters are declared in `pov-out.h`).
* The member variables of `PovOutput` are the fields of the structure
  `PovOutput`; a member function takes the state and returns the new one.
* What the C library, glib and the rest of Inkscape provide (number
  formatting, the clock, the version string, the file system, the object
  tree) is a parameter or a field of the input.
-/

namespace PovOut

/-! ## The data the exporter reads -/

/-- The XML node `Inkscape::XML::Node`: its tag name, its `id` attribute
(`attribute("id")`, `none` for a null pointer) and its children in sibling
order (`firstChild()`, `next()`). -/
inductive Node where
  | mk (name : String) (id : Option String) (children : List Node) : Node

/-- Tag name of a node, `node->name()`. -/
def Node.name : Node → String
  | Node.mk n _ _ => n

/-- The attribute `id` of a node, `rpath->attribute("id")`. -/
def Node.attributeId : Node → Option String
  | Node.mk _ i _ => i

/-- The children of a node, from `firstChild()` along `next()`. -/
def Node.children : Node → List Node
  | Node.mk _ _ c => c

/-- A point `NR::Point`, with its coordinates `[X]` and `[Y]`. -/
structure Point where
  x : ℚ
  y : ℚ
deriving DecidableEq

/-- The codes of a path command, `NRPathcode`. -/
inductive NRPathcode where
  | NR_MOVETO
  | NR_MOVETO_OPEN
  | NR_CURVETO
  | NR_LINETO
  | NR_END
deriving DecidableEq

open NRPathcode

/-- One path command `NArtBpath`: a code and up to three points. -/
structure NArtBpath where
  code : NRPathcode
  x1 : ℚ
  y1 : ℚ
  x2 : ℚ
  y2 : ℚ
  x3 : ℚ
  y3 : ℚ
deriving DecidableEq

/-- The accessor `bp->c(i)` for `i` in 1, 2, 3. -/
def NArtBpath.c (bp : NArtBpath) (i : Nat) : Point :=
  if i = 1 then ⟨bp.x1, bp.y1⟩ else if i = 2 then ⟨bp.x2, bp.y2⟩ else ⟨bp.x3, bp.y3⟩

/-- The curve `SPCurve`: the commands `SP_CURVE_BPATH(curve)[0 .. end-1]` in
front of the terminating entry; `SP_CURVE_LENGTH(curve)` is their number. -/
structure SPCurve where
  bpath : List NArtBpath
deriving DecidableEq

/-- The macro `SP_CURVE_LENGTH`. -/
def SP_CURVE_LENGTH (curve : SPCurve) : Int := curve.bpath.length

/-- Modelled from the spec: `sp_curve_empty` is defined in `display/curve.cpp`,
which is not among the sources; a curve is empty when it holds no path
command. -/
def sp_curve_empty (curve : SPCurve) : Bool := curve.bpath.isEmpty

/-- The fill types `SP_PAINT_TYPE_*` of `style.h`. -/
inductive SPPaintType where
  | SP_PAINT_TYPE_NONE
  | SP_PAINT_TYPE_COLOR
  | SP_PAINT_TYPE_PAINTSERVER
  | SP_PAINT_TYPE_IMPOSSIBLE
deriving DecidableEq

open SPPaintType

/-- The part of `SPStyle` the exporter reads: the fill type, the three
components `sp_color_get_rgb_floatv` gives for the fill colour, and
`SP_SCALE24_TO_FLOAT` of `fill_opacity.value` and of `opacity.value`. -/
structure SPStyle where
  fill_type : SPPaintType
  rgb0 : ℚ
  rgb1 : ℚ
  rgb2 : ℚ
  fill_opacity : ℚ
  opacity : ℚ
deriving DecidableEq

/-- Modelled from the spec: the type checks `SP_IS_ITEM` and `SP_IS_SHAPE` are
macros of headers that are not among the sources; an object is a plain object,
an item, or a shape, and a shape is an item. -/
inductive SPKind where
  | object
  | item
  | shape
deriving DecidableEq

/-- The document object `SPObject` (`SPItem`, `SPShape`): its class, its style
`SP_OBJECT_STYLE(obj)`, its `parent`, the transform `sp_item_i2d_affine(item)`
as the map a point is multiplied through, and `shape->curve`. -/
inductive SPObject where
  | mk (kind : SPKind) (style : Option SPStyle) (parent : Option SPObject)
      (i2d : Point → Point) (curve : Option SPCurve) : SPObject

/-- Class of an object. -/
def SPObject.kind : SPObject → SPKind
  | SPObject.mk k _ _ _ _ => k

/-- The style `SP_OBJECT_STYLE(obj)`. -/
def SPObject.style : SPObject → Option SPStyle
  | SPObject.mk _ s _ _ _ => s

/-- The pointer `obj->parent`. -/
def SPObject.parent : SPObject → Option SPObject
  | SPObject.mk _ _ p _ _ => p

/-- The transform `sp_item_i2d_affine(item)`. -/
def sp_item_i2d_affine : SPObject → Point → Point
  | SPObject.mk _ _ _ t _ => t

/-- The member `shape->curve`. -/
def SPObject.curve : SPObject → Option SPCurve
  | SPObject.mk _ _ _ _ c => c

/-- The ancestors of an object: its parent, the parent of that one, and so on
up to the object without parent. -/
def SPObject.ancestors : SPObject → List SPObject
  | SPObject.mk _ _ parent _ _ =>
    match parent with
    | none => []
    | some p => p :: p.ancestors

/-- Modelled from the spec: the macro `SP_IS_ITEM`, see `SPKind`. -/
def SP_IS_ITEM (obj : SPObject) : Bool :=
  match obj.kind with
  | SPKind.object => false
  | SPKind.item => true
  | SPKind.shape => true

/-- Modelled from the spec: the macro `SP_IS_SHAPE`, see `SPKind`. -/
def SP_IS_SHAPE (obj : SPObject) : Bool :=
  match obj.kind with
  | SPKind.shape => true
  | _ => false

/-- The document `SPDocument`: the root `rroot` of its XML tree and the map
`getObjectByRepr` from a node to its object. -/
structure SPDocument where
  rroot : Node
  getObjectByRepr : Node → Option SPObject

/-! ## Utility -/

mutual
/-- The function `findElementsByTagName`: push the node when the filter is
null or equals its name, then recurse into the children in order. -/
def findElementsByTagName (results : List Node) : Node → Option String → List Node
  | Node.mk nm i ch, name =>
    findElementsByTagName.children
      (if name.isNone || name == some nm then results ++ [Node.mk nm i ch] else results)
      ch name
/-- The loop of `findElementsByTagName` over the children of a node. -/
def findElementsByTagName.children (results : List Node) : List Node → Option String → List Node
  | [], _ => results
  | child :: rest, name =>
    findElementsByTagName.children (findElementsByTagName results child name) rest name
end

/-- The loop of `effective_opacity`, entered with the value of `ret` and the
object `obj`; an object without style ends it (`g_return_val_if_fail`). -/
def effective_opacity.loop (ret : ℚ) : SPObject → ℚ
  | SPObject.mk _ style parent _ _ =>
    match style with
    | none => ret
    | some s =>
      match parent with
      | none => ret * s.opacity
      | some p => effective_opacity.loop (ret * s.opacity) p

/-- The function `effective_opacity`. -/
def effective_opacity (item : SPObject) : ℚ :=
  effective_opacity.loop 1 item

/-! ## Output formatting

The number format `dstr` (`g_ascii_formatd(.., "%.8g", d)` of glib) is a
parameter of every function that prints a number. -/

/-- The result of `g_vsnprintf(buf, n, ..)` and of `snprintf(buf, n, ..)` for
the formatted text `s`: at most `n - 1` characters of it. -/
def vsnprintf (n : Nat) (s : String) : String :=
  ⟨s.data.take (n - 1)⟩

/-- The conversion `%d` of an `int`. -/
def fmt_d (n : Int) : String := toString n

/-- The conversion `%4d` of an `int`: padded with blanks on the left to a
width of four. -/
def fmt_4d (n : Int) : String :=
  ⟨List.replicate (4 - (fmt_d n).length) ' '⟩ ++ fmt_d n

/-- One exported shape, `PovShapeInfo`. -/
structure PovShapeInfo where
  id : String
  color : String
deriving DecidableEq

/-- The member variables of the exporter `PovOutput` (the scratch buffer
`fmtbuf` apart). -/
structure PovOutput where
  nrNodes : Int
  nrSegments : Int
  nrShapes : Int
  outbuf : String
  povShapes : List PovShapeInfo
deriving DecidableEq

/-- The function `PovOutput::out`, given the text its format and arguments
expand to: the text goes through the buffer `fmtbuf` of 4096 characters. -/
def out (st : PovOutput) (text : String) : PovOutput :=
  { st with outbuf := st.outbuf ++ vsnprintf 4096 text }

/-- The call `outbuf.append(s)`. -/
def append (st : PovOutput) (s : String) : PovOutput :=
  { st with outbuf := st.outbuf ++ s }

/-- The function `PovOutput::vec2`. -/
def vec2 (dstr : ℚ → String) (st : PovOutput) (a b : ℚ) : PovOutput :=
  let st := append st "<"
  let st := append st (dstr a)
  let st := append st ", "
  let st := append st (dstr b)
  append st ">"

/-- The function `PovOutput::segment`. -/
def segment (dstr : ℚ → String) (st : PovOutput) (segNr : Int)
    (a0 a1 b0 b1 c0 c1 d0 d1 : ℚ) : PovOutput :=
  let buf := vsnprintf 31 ("    /*" ++ fmt_4d segNr ++ "*/ ")
  let st := append st buf
  let st := vec2 dstr st a0 a1
  let st := append st ", "
  let st := vec2 dstr st b0 b1
  let st := append st ", "
  let st := vec2 dstr st c0 c1
  let st := append st ", "
  vec2 dstr st d0 d1

/-- The function `PovOutput::doHeader`, for the macro `VERSION` of `config.h`
and the string `created` that `ctime(&tim)` gives at the moment of the
export. -/
def doHeader (VERSION created : String) (st : PovOutput) : PovOutput :=
  let st := out st "/*###################################################################\n"
  let st := out st "### This PovRay document was generated by Inkscape\n"
  let st := out st "### http://www.inkscape.org\n"
  let st := out st ("### Created: " ++ created)
  let st := out st ("### Version: " ++ VERSION ++ "\n")
  let st := out st "#####################################################################\n"
  let st := out st "### NOTES:\n"
  let st := out st "### ============\n"
  let st := out st "### POVRay information can be found at\n"
  let st := out st "### http://www.povray.org\n"
  let st := out st "###\n"
  let st := out st "### The 'AllShapes' objects at the bottom are provided as a\n"
  let st := out st "### preview of how the output would look in a trace.  However,\n"
  let st := out st "### the main intent of this file is to provide the individual\n"
  let st := out st "### shapes for inclusion in a POV project.\n"
  let st := out st "###\n"
  let st := out st "### For an example of how to use this file, look at\n"
  let st := out st "### share/examples/istest.pov\n"
  let st := out st "###################################################################*/\n"
  let st := out st "\n\n"
  let st := out st "/*###################################################################\n"
  let st := out st "##   Exports in this file\n"
  let st := out st "##==========================\n"
  let st := out st ("##    Shapes   : " ++ fmt_d st.nrShapes ++ "\n")
  let st := out st ("##    Segments : " ++ fmt_d st.nrSegments ++ "\n")
  let st := out st ("##    Nodes    : " ++ fmt_d st.nrNodes ++ "\n")
  let st := out st "###################################################################*/\n"
  out st "\n\n\n"

/-- The function `PovOutput::doTail`. -/
def doTail (st : PovOutput) : PovOutput :=
  let st := out st "\n\n"
  let st := out st "/*###################################################################\n"
  let st := out st "### E N D    F I L E\n"
  let st := out st "###################################################################*/\n"
  out st "\n\n"

/-! ## The curves -/

/-- The constant `bignum` of `doCurves`. -/
def bignum : ℚ := 1000000

/-- The local variables of the loop over the commands of one curve, together
with the exporter itself. -/
structure CurveVars where
  st : PovOutput
  segmentNr : Int
  cminx : ℚ
  cmaxx : ℚ
  cminy : ℚ
  cmaxy : ℚ
  lastx : ℚ
  lasty : ℚ

/-- The four `if` statements behind an emitted segment: the bounds of the
shape take in the point `(lastx, lasty)`. -/
def CurveVars.bound (v : CurveVars) : CurveVars :=
  let v := if v.lastx < v.cminx then { v with cminx := v.lastx } else v
  let v := if v.lastx > v.cmaxx then { v with cmaxx := v.lastx } else v
  let v := if v.lasty < v.cminy then { v with cminy := v.lasty } else v
  if v.lasty > v.cmaxy then { v with cmaxy := v.lasty } else v

/-- The counting loop of `doCurves`: how many commands of the curve are
`NR_CURVETO` or `NR_LINETO`. -/
def countSegments (segmentCount : Int) : List NArtBpath → Int
  | [] => segmentCount
  | bp :: rest =>
    countSegments
      (if bp.code = NR_CURVETO ∨ bp.code = NR_LINETO then segmentCount + 1 else segmentCount)
      rest

/-- One turn of the loop of `doCurves` over the commands of a curve, for the
command `bp`, the transform `tf` and the count `segmentCount`. -/
def curveStep (dstr : ℚ → String) (tf : Point → Point) (segmentCount : Int)
    (v : CurveVars) (bp : NArtBpath) : CurveVars :=
  let p1 := tf (bp.c 1)
  let p2 := tf (bp.c 2)
  let p3 := tf (bp.c 3)
  let x1 := p1.x
  let y1 := p1.y
  let x2 := p2.x
  let y2 := p2.y
  let x3 := p3.x
  let y3 := p3.y
  let v :=
    match bp.code with
    | NR_MOVETO => v
    | NR_MOVETO_OPEN => v
    | NR_CURVETO =>
      let st := segment dstr v.st v.segmentNr v.lastx v.lasty x1 y1 x2 y2 x3 y3
      let segmentNr := v.segmentNr + 1
      let st := { st with nrNodes := st.nrNodes + 8 }
      let st := if segmentNr < segmentCount then out st ",\n" else out st "\n"
      CurveVars.bound { v with st := st, segmentNr := segmentNr }
    | NR_LINETO =>
      let st := segment dstr v.st v.segmentNr v.lastx v.lasty v.lastx v.lasty x3 y3 x3 y3
      let segmentNr := v.segmentNr + 1
      let st := { st with nrNodes := st.nrNodes + 8 }
      let st := if segmentNr < segmentCount then out st ",\n" else out st "\n"
      CurveVars.bound { v with st := st, segmentNr := segmentNr }
    | NR_END => v
  { v with lastx := x3, lasty := y3 }

/-- The loop of `doCurves` over the commands of a curve. -/
def curveLoop (dstr : ℚ → String) (tf : Point → Point) (segmentCount : Int)
    (v : CurveVars) (bpath : List NArtBpath) : CurveVars :=
  bpath.foldl (curveStep dstr tf segmentCount) v

/-- The arguments of one call of `PovOutput::segment`: the number of the
record and its four points. -/
structure Quadruple where
  segNr : Int
  a0 : ℚ
  a1 : ℚ
  b0 : ℚ
  b1 : ℚ
  c0 : ℚ
  c1 : ℚ
  d0 : ℚ
  d1 : ℚ
deriving DecidableEq

/-- The calls of `PovOutput::segment` that the loop of `doCurves` over the
commands of a curve makes, in order, when it is entered with the values
`segmentNr`, `lastx` and `lasty`: one call for an `NR_CURVETO`, one for an
`NR_LINETO`, none for the other codes, and `lastx`, `lasty` set behind every
command. -/
def segmentCalls (tf : Point → Point) : Int → ℚ → ℚ → List NArtBpath → List Quadruple
  | _, _, _, [] => []
  | segmentNr, lastx, lasty, bp :: rest =>
    let p1 := tf (bp.c 1)
    let p2 := tf (bp.c 2)
    let p3 := tf (bp.c 3)
    match bp.code with
    | NR_MOVETO => segmentCalls tf segmentNr p3.x p3.y rest
    | NR_MOVETO_OPEN => segmentCalls tf segmentNr p3.x p3.y rest
    | NR_CURVETO =>
      ⟨segmentNr, lastx, lasty, p1.x, p1.y, p2.x, p2.y, p3.x, p3.y⟩ ::
        segmentCalls tf (segmentNr + 1) p3.x p3.y rest
    | NR_LINETO =>
      ⟨segmentNr, lastx, lasty, lastx, lasty, p3.x, p3.y, p3.x, p3.y⟩ ::
        segmentCalls tf (segmentNr + 1) p3.x p3.y rest
    | NR_END => segmentCalls tf segmentNr p3.x p3.y rest

/-- The text one call of `PovOutput::segment` appends to the buffer, followed
by what the loop writes behind it: a comma and a newline while the number of
the next record is below `segmentCount`, a newline alone otherwise. -/
def Quadruple.text (dstr : ℚ → String) (segmentCount : Int) (q : Quadruple) : String :=
  (segment dstr ⟨0, 0, 0, "", []⟩ q.segNr q.a0 q.a1 q.b0 q.b1 q.c0 q.c1 q.d0 q.d1).outbuf ++
    (if q.segNr + 1 < segmentCount then vsnprintf 4096 ",\n" else vsnprintf 4096 "\n")

/-- The texts of a list, one behind the other. -/
def concat (l : List String) : String :=
  l.foldr (fun s t => s ++ t) ""

/-- The value `dopacity` of `doCurves` for a shape and its style. -/
def dopacity (style : SPStyle) (shape : SPObject) : ℚ :=
  style.fill_opacity * effective_opacity shape

/-- The colour string `shapeInfo.color` that `doCurves` builds for a shape:
empty unless the shape has a style whose fill is a flat colour. -/
def shapeColor (dstr : ℚ → String) (shape : SPObject) : String :=
  match shape.style with
  | none => ""
  | some style =>
    if style.fill_type = SP_PAINT_TYPE_COLOR then
      let rgbf := "rgbf <"
      let rgbf := rgbf ++ dstr style.rgb0
      let rgbf := rgbf ++ ", "
      let rgbf := rgbf ++ dstr style.rgb1
      let rgbf := rgbf ++ ", "
      let rgbf := rgbf ++ dstr style.rgb2
      let rgbf := rgbf ++ ", "
      let rgbf := rgbf ++ dstr (1 - dopacity style shape)
      let rgbf := rgbf ++ ">"
      "" ++ rgbf
    else ""

/-- The variables of the loop of `doCurves` over the nodes: the exporter and
the bounds of the document. -/
structure DocVars where
  st : PovOutput
  minx : ℚ
  maxx : ℚ
  miny : ℚ
  maxy : ℚ

/-- The four checks at the head of the loop body of `doCurves`, each of which
ends the turn with `continue`: what a node that passes them hands to the rest
of the body, namely its identifier, its object, the transform and the curve.
A shape without curve counts as one with an empty curve. -/
def qualify (active : SPDocument) (rpath : Node) :
    Option (String × SPObject × (Point → Point) × SPCurve) :=
  match rpath.attributeId with
  | none => none
  | some str =>
    let id := str
    match active.getObjectByRepr rpath with
    | none => none
    | some reprobj =>
      if !SP_IS_ITEM reprobj then none
      else
        let tf := sp_item_i2d_affine reprobj
        if !SP_IS_SHAPE reprobj then none
        else
          match reprobj.curve with
          | none => none
          | some curve =>
            if sp_curve_empty curve then none
            else some (id, reprobj, tf, curve)

/-- The part of the loop body of `doCurves` that writes the prism of a shape:
from the count of the segments to the end of the loop over the commands. -/
def prism (dstr : ℚ → String) (st : PovOutput) (id : String)
    (tf : Point → Point) (curve : SPCurve) : CurveVars :=
  let curveLength := SP_CURVE_LENGTH curve
  let segmentCount := countSegments 0 curve.bpath
  let st := out st "/*###################################################\n"
  let st := out st ("### PRISM:  " ++ id ++ "\n")
  let st := out st "###################################################*/\n"
  let st := out st ("#declare " ++ id ++ " = prism \x7b\n")
  let st := out st "    linear_sweep\n"
  let st := out st "    bezier_spline\n"
  let st := out st "    1.0, //top\n"
  let st := out st "    0.0, //bottom\n"
  let st := out st ("    " ++ fmt_d (segmentCount * 4) ++ " //nr points\n")
  let st := { st with nrSegments := st.nrSegments + curveLength }
  let v : CurveVars :=
    { st := st, segmentNr := 0, cminx := bignum, cmaxx := -bignum,
      cminy := bignum, cmaxy := -bignum, lastx := 0, lasty := 0 }
  curveLoop dstr tf segmentCount v curve.bpath

/-- The part of the loop body of `doCurves` that closes the prism and declares
the eight scalars of the bounds of the shape. -/
def declareBounds (dstr : ℚ → String) (pfx : String) (v : CurveVars) : PovOutput :=
  let st := v.st
  let st := out st "\x7d\n"
  let st := out st ("#declare " ++ pfx ++ "_MIN_X    = " ++ dstr v.cminx ++ ";\n")
  let st := out st ("#declare " ++ pfx ++ "_CENTER_X = " ++ dstr ((v.cmaxx + v.cminx) / 2) ++ ";\n")
  let st := out st ("#declare " ++ pfx ++ "_MAX_X    = " ++ dstr v.cmaxx ++ ";\n")
  let st := out st ("#declare " ++ pfx ++ "_WIDTH    = " ++ dstr (v.cmaxx - v.cminx) ++ ";\n")
  let st := out st ("#declare " ++ pfx ++ "_MIN_Y    = " ++ dstr v.cminy ++ ";\n")
  let st := out st ("#declare " ++ pfx ++ "_CENTER_Y = " ++ dstr ((v.cmaxy + v.cminy) / 2) ++ ";\n")
  let st := out st ("#declare " ++ pfx ++ "_MAX_Y    = " ++ dstr v.cmaxy ++ ";\n")
  out st ("#declare " ++ pfx ++ "_HEIGHT   = " ++ dstr (v.cmaxy - v.cminy) ++ ";\n")

/-- The end of the loop body of `doCurves`: the closing comment of the shape,
written to the exporter `st`. -/
def endShape (st : PovOutput) (id : String) : PovOutput :=
  let st := out st "/*###################################################\n"
  let st := out st ("### end " ++ id ++ "\n")
  out st "###################################################*/\n\n\n\n"

/-- The last four `if` statements of the loop body of `doCurves`: the bounds
of the document take in the bounds of the shape. -/
def DocVars.merge (d : DocVars) (v : CurveVars) : DocVars :=
  let d := if v.cminx < d.minx then { d with minx := v.cminx } else d
  let d := if v.cmaxx > d.maxx then { d with maxx := v.cmaxx } else d
  let d := if v.cminy < d.miny then { d with miny := v.cminy } else d
  if v.cmaxy > d.maxy then { d with maxy := v.cmaxy } else d

/-- The loop body of `doCurves` behind the four checks (from `nrShapes++`
on), for a shape `shape` with identifier `id`, transform `tf` and curve
`curve`. -/
def doShape (dstr : ℚ → String) (d : DocVars) (id : String) (shape : SPObject)
    (tf : Point → Point) (curve : SPCurve) : DocVars :=
  let st := d.st
  let st := { st with nrShapes := st.nrShapes + 1 }
  let shapeInfo : PovShapeInfo := { id := id, color := shapeColor dstr shape }
  let st := { st with povShapes := st.povShapes ++ [shapeInfo] }
  let v := prism dstr st id tf curve
  let pfx := id
  let st := declareBounds dstr pfx v
  let st :=
    if shapeInfo.color.length > 0 then
      out st ("#declare " ++ pfx ++ "_COLOR    = " ++ shapeInfo.color ++ ";\n")
    else st
  let st := endShape st id
  DocVars.merge { d with st := st } v

/-- The body of the loop of `doCurves` over the collected nodes. -/
def doNode (dstr : ℚ → String) (active : SPDocument) (d : DocVars) (rpath : Node) : DocVars :=
  match qualify active rpath with
  | none => d
  | some (id, shape, tf, curve) => doShape dstr d id shape tf curve

/-- The text the loop body of `doCurves` writes for a shape: what `doShape`
leaves in a buffer that was empty. -/
def shapeText (dstr : ℚ → String) (id : String) (shape : SPObject)
    (tf : Point → Point) (curve : SPCurve) : String :=
  (doShape dstr ⟨⟨0, 0, 0, "", []⟩, 0, 0, 0, 0⟩ id shape tf curve).st.outbuf

/-- The body of the first loop over `povShapes` in `doCurves`: one member of
the union `AllShapes`. -/
def unionMember (pfx : String) (st : PovOutput) (shape : PovShapeInfo) : PovOutput :=
  let st := out st ("    object \x7b " ++ shape.id ++ "\n")
  let st := out st "        texture \x7b \n"
  let st :=
    if shape.color.length > 0 then
      out st ("            pigment \x7b " ++ shape.color ++ " \x7d\n")
    else
      out st "            pigment \x7b rgb <0,0,0> \x7d\n"
  let st := out st ("            finish \x7b " ++ pfx ++ "_Finish \x7d\n")
  let st := out st "            \x7d \n"
  out st "        \x7d \n"

/-- The body of the second loop over `povShapes` in `doCurves`: one member of
the union `AllShapes_Z`. -/
def unionMemberZ (pfx : String) (st : PovOutput) (shape : PovShapeInfo) : PovOutput :=
  let st := out st ("    object \x7b " ++ shape.id ++ "\n")
  let st := out st "        texture \x7b \n"
  let st :=
    if shape.color.length > 0 then
      out st ("            pigment \x7b " ++ shape.color ++ " \x7d\n")
    else
      out st "            pigment \x7b rgb <0,0,0> \x7d\n"
  let st := out st ("            finish \x7b " ++ pfx ++ "_Finish \x7d\n")
  let st := out st "            \x7d \n"
  let st := out st ("        scale <1, " ++ pfx ++ "_Z_Scale, 1>\n")
  let st := out st "        \x7d \n"
  out st ("#declare " ++ pfx ++ "_Z_Scale = " ++ pfx ++ "_Z_Scale + " ++ pfx ++ "_Z_Increment;\n\n")

/-- The block of `doCurves` that opens the union of all shapes, up to the
line `#declare AllShapes = union`. -/
def unionOpen (st : PovOutput) : PovOutput :=
  let id := "AllShapes"
  let pfx := id
  let st := out st "/*###################################################\n"
  let st := out st "### UNION OF ALL SHAPES IN DOCUMENT\n"
  let st := out st "###################################################*/\n"
  let st := out st "\n\n"
  let st := out st "/**\n"
  let st := out st " * Allow the user to redefine the finish\x7b\x7d\n"
  let st := out st " * by declaring it before #including this file\n"
  let st := out st " */\n"
  let st := out st ("#ifndef (" ++ pfx ++ "_Finish)\n")
  let st := out st ("#declare " ++ pfx ++ "_Finish = finish \x7b\n")
  let st := out st "    phong 0.5\n"
  let st := out st "    reflection 0.3\n"
  let st := out st "    specular 0.5\n"
  let st := out st "\x7d\n"
  let st := out st "#end\n"
  let st := out st "\n\n"
  out st ("#declare " ++ id ++ " = union \x7b\n")

/-- The block of `doCurves` behind the first union: the same union with an
increasing scale, then the bounds of the document and the closing comment. -/
def unionZ (dstr : ℚ → String) (d : DocVars) (st : PovOutput) : PovOutput :=
  let id := "AllShapes"
  let pfx := id
  let zinc : ℚ := (2 / 10) / (st.povShapes.length : ℚ)
  let st := out st "/*#### Same union, but with Z-diffs (actually Y in pov) ####*/\n"
  let st := out st "\n\n"
  let st := out st "/**\n"
  let st := out st " * Allow the user to redefine the Z-Increment\n"
  let st := out st " */\n"
  let st := out st "#ifndef (AllShapes_Z_Increment)\n"
  let st := out st ("#declare AllShapes_Z_Increment = " ++ dstr zinc ++ ";\n")
  let st := out st "#end\n"
  let st := out st "\n"
  let st := out st "#declare AllShapes_Z_Scale = 1.0;\n"
  let st := out st "\n\n"
  let st := out st ("#declare " ++ pfx ++ "_Z = union \x7b\n")
  let st := st.povShapes.foldl (unionMemberZ pfx) st
  let st := out st "\x7d\n"
  let st := out st ("#declare " ++ pfx ++ "_MIN_X    = " ++ dstr d.minx ++ ";\n")
  let st := out st ("#declare " ++ pfx ++ "_CENTER_X = " ++ dstr ((d.maxx + d.minx) / 2) ++ ";\n")
  let st := out st ("#declare " ++ pfx ++ "_MAX_X    = " ++ dstr d.maxx ++ ";\n")
  let st := out st ("#declare " ++ pfx ++ "_WIDTH    = " ++ dstr (d.maxx - d.minx) ++ ";\n")
  let st := out st ("#declare " ++ pfx ++ "_MIN_Y    = " ++ dstr d.miny ++ ";\n")
  let st := out st ("#declare " ++ pfx ++ "_CENTER_Y = " ++ dstr ((d.maxy + d.miny) / 2) ++ ";\n")
  let st := out st ("#declare " ++ pfx ++ "_MAX_Y    = " ++ dstr d.maxy ++ ";\n")
  let st := out st ("#declare " ++ pfx ++ "_HEIGHT   = " ++ dstr (d.maxy - d.miny) ++ ";\n")
  let st := out st "/*##############################################\n"
  let st := out st ("### end " ++ id ++ "\n")
  let st := out st "##############################################*/\n"
  out st "\n\n"

/-- The block of `doCurves` under `if (povShapes.size()>0)`. -/
def doUnion (dstr : ℚ → String) (d : DocVars) : PovOutput :=
  let pfx := "AllShapes"
  let st := unionOpen d.st
  let st := st.povShapes.foldl (unionMember pfx) st
  let st := out st "\x7d\n\n\n\n"
  unionZ dstr d st

/-- The loop of `doCurves` over the collected nodes, entered with the bounds
of the document at their initial values. -/
def nodeLoop (dstr : ℚ → String) (active : SPDocument) (st : PovOutput)
    (results : List Node) : DocVars :=
  results.foldl (doNode dstr active)
    { st := st, minx := bignum, maxx := -bignum, miny := bignum, maxy := -bignum }

/-- The function `PovOutput::doCurves`, for the document `doc` it is given
and the document `active` that `SP_ACTIVE_DOCUMENT` stands for. -/
def doCurves (dstr : ℚ → String) (active : SPDocument) (st : PovOutput)
    (_doc : SPDocument) : PovOutput :=
  let results := findElementsByTagName [] active.rroot none
  if results.length = 0 then st
  else
    let d := nodeLoop dstr active st results
    if d.st.povShapes.length > 0 then doUnion dstr d else d.st

/-! ## Main output -/

/-- The function `PovOutput::reset`. -/
def reset (st : PovOutput) : PovOutput :=
  { st with nrNodes := 0, nrSegments := 0, nrShapes := 0, outbuf := "", povShapes := [] }

/-- The files the exporter can reach: `canOpen uri` tells whether
`fopen_utf8name(uri, "w")` gives a stream, `content uri` is what the file of
that name holds, if there is one. -/
structure FileSystem where
  canOpen : String → Bool
  content : String → Option String

/-- The first half of `saveDocument`, which fills the buffer: reset, curves,
then header, curves and tail. -/
def saveDocument.buffer (dstr : ℚ → String) (VERSION created : String)
    (active : SPDocument) (st : PovOutput) (doc : SPDocument) : PovOutput :=
  let st := reset st
  let st := doCurves dstr active st doc
  let curveBuf := st.outbuf
  let st := { st with outbuf := "" }
  let st := doHeader VERSION created st
  let st := append st curveBuf
  doTail st

/-- The function `PovOutput::saveDocument`. It returns nothing (`void`); what
comes back is the exporter and the file system as it leaves them. When the
stream cannot be opened it returns at once; otherwise every character of the
buffer is written to the file, which is then closed. -/
def saveDocument (dstr : ℚ → String) (VERSION created : String) (active : SPDocument)
    (fs : FileSystem) (st : PovOutput) (doc : SPDocument) (uri : String) :
    PovOutput × FileSystem :=
  let st := saveDocument.buffer dstr VERSION created active st doc
  if !fs.canOpen uri then (st, fs)
  else
    (st, { fs with content := fun name => if name = uri then some st.outbuf else fs.content name })

/-- The function `PovOutput::save`, which returns nothing either. -/
def save (dstr : ℚ → String) (VERSION created : String) (active : SPDocument)
    (fs : FileSystem) (st : PovOutput) (doc : SPDocument) (uri : String) :
    PovOutput × FileSystem :=
  saveDocument dstr VERSION created active fs st doc uri

/-! ## The walks the specification describes

These definitions follow the words of the specification, not the source; the
theorems compare them with the functions above. -/

mutual
/-- Follows the words of the specification: the nodes of the subtree rooted at
a node in depth-first pre-order, that is the node itself, then the subtrees of
its children, one child after the other. -/
def preorder : Node → List Node
  | Node.mk nm i ch => Node.mk nm i ch :: preorder.children ch
/-- The subtrees of a list of siblings in depth-first pre-order, one sibling
after the other. -/
def preorder.children : List Node → List Node
  | [] => []
  | child :: rest => preorder child ++ preorder.children rest
end

/-- Follows the words of the specification: whether a node passes the name
filter. A null filter lets every node pass, any other one the nodes whose tag
name equals it. -/
def passesFilter (name : Option String) (node : Node) : Bool :=
  match name with
  | none => true
  | some wanted => node.name == wanted

/-- Follows the words of the specification as they stand: the quadruples of a
curve under the transform `T`, from a walk over its commands with the record
number `nr` and the current point `current`. A cubic curve gives (current,
T(handle 1), T(handle 2), T(end)) and a line (current, current, T(end),
T(end)), and behind each of the two the current point is T(end); a move and an
end give nothing and leave the current point where it is. -/
def walkAsStated (T : Point → Point) : Int → Point → List NArtBpath → List Quadruple
  | _, _, [] => []
  | nr, current, bp :: rest =>
    match bp.code with
    | NR_CURVETO =>
      ⟨nr, current.x, current.y, (T (bp.c 1)).x, (T (bp.c 1)).y, (T (bp.c 2)).x, (T (bp.c 2)).y,
        (T (bp.c 3)).x, (T (bp.c 3)).y⟩ :: walkAsStated T (nr + 1) (T (bp.c 3)) rest
    | NR_LINETO =>
      ⟨nr, current.x, current.y, current.x, current.y, (T (bp.c 3)).x, (T (bp.c 3)).y,
        (T (bp.c 3)).x, (T (bp.c 3)).y⟩ :: walkAsStated T (nr + 1) (T (bp.c 3)) rest
    | _ => walkAsStated T nr current rest

/-- The walk of `walkAsStated` with one change: behind every command, a move
and an end among them, the current point is T of the third point of the
command. -/
def walkMoving (T : Point → Point) : Int → Point → List NArtBpath → List Quadruple
  | _, _, [] => []
  | nr, current, bp :: rest =>
    match bp.code with
    | NR_CURVETO =>
      ⟨nr, current.x, current.y, (T (bp.c 1)).x, (T (bp.c 1)).y, (T (bp.c 2)).x, (T (bp.c 2)).y,
        (T (bp.c 3)).x, (T (bp.c 3)).y⟩ :: walkMoving T (nr + 1) (T (bp.c 3)) rest
    | NR_LINETO =>
      ⟨nr, current.x, current.y, current.x, current.y, (T (bp.c 3)).x, (T (bp.c 3)).y,
        (T (bp.c 3)).x, (T (bp.c 3)).y⟩ :: walkMoving T (nr + 1) (T (bp.c 3)) rest
    | _ => walkMoving T nr (T (bp.c 3)) rest

/-! ## Inputs of the examples -/

/-- A number format for the examples, which stands in for `"%.8g"`: the
numerator, and behind a slash the denominator when it is not one. -/
def exDstr (q : ℚ) : String :=
  fmt_d q.num ++ (if q.den = 1 then "" else "/" ++ fmt_d q.den)

/-- The loop variables `doCurves` enters its loop over the nodes with, for an
exporter that `reset` has just cleared. -/
def exStart : DocVars :=
  { st := ⟨0, 0, 0, "", []⟩, minx := bignum, maxx := -bignum, miny := bignum, maxy := -bignum }

/-- A transform for the examples: scale by 2 and 3, then shift by 10 along
the first axis. -/
def exTf (p : Point) : Point := ⟨2 * p.x + 10, 3 * p.y⟩

/-- A curve of one move and four lines through the corners `p0`, `p1`, `p2`,
`p3` and back to `p0`; for a rectangle the corners are its four vertices. The
points a line does not use are zero. -/
def closedPath4 (p0 p1 p2 p3 : Point) : SPCurve :=
  ⟨[⟨NR_MOVETO, 0, 0, 0, 0, p0.x, p0.y⟩, ⟨NR_LINETO, 0, 0, 0, 0, p1.x, p1.y⟩,
    ⟨NR_LINETO, 0, 0, 0, 0, p2.x, p2.y⟩, ⟨NR_LINETO, 0, 0, 0, 0, p3.x, p3.y⟩,
    ⟨NR_LINETO, 0, 0, 0, 0, p0.x, p0.y⟩]⟩

/-- A curve of one move and three lines: a triangle. -/
def exTriangle : SPCurve :=
  ⟨[⟨NR_MOVETO, 0, 0, 0, 0, 0, 0⟩, ⟨NR_LINETO, 0, 0, 0, 0, 4, 0⟩,
    ⟨NR_LINETO, 0, 0, 0, 0, 0, 3⟩, ⟨NR_LINETO, 0, 0, 0, 0, 0, 0⟩]⟩

/-- A curve of one move and four lines, a closed rectangle with the corners
(1, 2), (5, 2), (5, 4) and (1, 4). -/
def exRect : SPCurve :=
  ⟨[⟨NR_MOVETO, 0, 0, 0, 0, 1, 2⟩, ⟨NR_LINETO, 0, 0, 0, 0, 5, 2⟩,
    ⟨NR_LINETO, 0, 0, 0, 0, 5, 4⟩, ⟨NR_LINETO, 0, 0, 0, 0, 1, 4⟩,
    ⟨NR_LINETO, 0, 0, 0, 0, 1, 2⟩]⟩

/-- A style with a flat red fill, for the given opacity of the fill and of
the object. -/
def exRed (fill_opacity opacity : ℚ) : SPStyle :=
  ⟨SP_PAINT_TYPE_COLOR, 1, 0, 0, fill_opacity, opacity⟩

/-- A shape with the rectangle as its curve, filled in red, half opaque. -/
def exRectShape : SPObject :=
  SPObject.mk SPKind.shape (some (exRed (1 / 2) 1)) none exTf (some exRect)

/-- A document whose only shape is the rectangle, on the node `rect1`. -/
def exRectDoc : SPDocument :=
  { rroot := Node.mk "svg:svg" none [Node.mk "svg:rect" (some "rect1") []]
    getObjectByRepr := fun n => if n.attributeId = some "rect1" then some exRectShape else none }

/-- A node whose attribute `id` is present and empty. -/
def exEmptyIdNode : Node := Node.mk "svg:path" (some "") []

/-- A document whose only shape, a triangle without style, hangs on the node
with the empty `id`. -/
def exEmptyIdDoc : SPDocument :=
  { rroot := Node.mk "svg:svg" (some "svg2") [exEmptyIdNode]
    getObjectByRepr := fun n =>
      if n.attributeId = some "" then
        some (SPObject.mk SPKind.shape none none (fun p => p) (some exTriangle))
      else none }

/-- A document without any shape: the root and a group, both with an `id`,
the group an item that is no shape. -/
def exGroupDoc : SPDocument :=
  { rroot := Node.mk "svg:svg" (some "svg2") [Node.mk "svg:g" (some "layer1") []]
    getObjectByRepr := fun n =>
      if n.attributeId = some "layer1" then
        some (SPObject.mk SPKind.item none none (fun p => p) none)
      else none }

/-- A shape without parent whose fill is fully opaque and whose own opacity
is one half. -/
def exFaint : SPObject :=
  SPObject.mk SPKind.shape (some (exRed 1 (1 / 2))) none (fun p => p) (some exTriangle)

/-- A group of opacity one half under the given parent. -/
def exGroup (parent : Option SPObject) : SPObject :=
  SPObject.mk SPKind.item (some ⟨SP_PAINT_TYPE_NONE, 0, 0, 0, 1, 1 / 2⟩) parent (fun p => p) none

/-- A shape of fill opacity one half and own opacity one, nested under three
groups of opacity one half each. -/
def exNested : SPObject :=
  SPObject.mk SPKind.shape (some (exRed (1 / 2) 1))
    (some (exGroup (some (exGroup (some (exGroup none)))))) (fun p => p) (some exTriangle)

/-- A shape whose fill is a gradient (a paint server). -/
def exGradient : SPObject :=
  SPObject.mk SPKind.shape (some ⟨SP_PAINT_TYPE_PAINTSERVER, 0, 0, 0, 1, 1⟩) none (fun p => p)
    (some exTriangle)

/-- An exporter that an earlier export has left in some state. -/
def exUsed : PovOutput :=
  ⟨16, 3, 1, "text of an earlier export", [⟨"path1", ""⟩]⟩

/-- A file system in which every file can be opened and none exists yet. -/
def exOpenFs : FileSystem :=
  { canOpen := fun _ => true, content := fun _ => none }

/-- A file system in which no file can be opened for writing; the file
`out.pov` holds an earlier text. -/
def exClosedFs : FileSystem :=
  { canOpen := fun _ => false
    content := fun name => if name = "out.pov" then some "earlier text" else none }

/-- A curve of a move to `p` and one line to `q`. -/
def stroke (p q : Point) : SPCurve :=
  ⟨[⟨NR_MOVETO, 0, 0, 0, 0, p.x, p.y⟩, ⟨NR_LINETO, 0, 0, 0, 0, q.x, q.y⟩]⟩

/-- A curve of a move to (1, 2) and one line to (5, 4). -/
def exStroke : SPCurve :=
  ⟨[⟨NR_MOVETO, 0, 0, 0, 0, 1, 2⟩, ⟨NR_LINETO, 0, 0, 0, 0, 5, 4⟩]⟩

/-- A curve of two sub-paths: a move to (1, 2) and a line to (5, 2), then a
move to (7, 7) and a line to (9, 9). -/
def exTwoStrokes : SPCurve :=
  ⟨[⟨NR_MOVETO, 0, 0, 0, 0, 1, 2⟩, ⟨NR_LINETO, 0, 0, 0, 0, 5, 2⟩,
    ⟨NR_MOVETO, 0, 0, 0, 0, 7, 7⟩, ⟨NR_LINETO, 0, 0, 0, 0, 9, 9⟩]⟩

/-- A document with two shapes, a path and a rectangle, whose nodes carry the
same `id`. -/
def exTwinDoc : SPDocument :=
  { rroot := Node.mk "svg:svg" none
      [Node.mk "svg:path" (some "twin") [], Node.mk "svg:rect" (some "twin") []]
    getObjectByRepr := fun n =>
      if n.name = "svg:path" then
        some (SPObject.mk SPKind.shape none none (fun p => p) (some exTriangle))
      else if n.name = "svg:rect" then
        some (SPObject.mk SPKind.shape none none (fun p => p) (some exRect))
      else none }

/-- A tree of five nodes: a root with a group of two paths and a rectangle
behind it. -/
def exTree : Node :=
  Node.mk "svg:svg" none
    [Node.mk "svg:g" (some "g1")
        [Node.mk "svg:path" (some "p1") [], Node.mk "svg:path" (some "p2") []],
      Node.mk "svg:rect" (some "r1") []]

/-! ## Lemmas on the text and the counters

Each block of the exporter leaves the buffer it finds in front and appends
its own text; the counters move by what the block exports. -/

theorem vsnprintf_short (n : Nat) (s : String) (h : s.length < n) : vsnprintf n s = s := by
  unfold vsnprintf
  have h1 : s.data.length = s.length := rfl
  have h2 : s.data.take (n - 1) = s.data := List.take_of_length_le (by omega)
  rw [h2]

theorem segment_eq (dstr : ℚ → String) (st : PovOutput) (n : Int) (a0 a1 b0 b1 c0 c1 d0 d1 : ℚ) :
    segment dstr st n a0 a1 b0 b1 c0 c1 d0 d1 =
      { st with outbuf := st.outbuf ++
          (segment dstr ⟨0, 0, 0, "", []⟩ n a0 a1 b0 b1 c0 c1 d0 d1).outbuf } := by
  simp [segment, vec2, append, String.append_assoc]

theorem bound_st (v : CurveVars) : v.bound.st = v.st := by
  unfold CurveVars.bound; dsimp only; split_ifs <;> rfl

theorem bound_segmentNr (v : CurveVars) : v.bound.segmentNr = v.segmentNr := by
  unfold CurveVars.bound; dsimp only; split_ifs <;> rfl

/-- What one emitted record does to the exporter: eight more nodes and the
text of the record at the end of the buffer. -/
theorem emit_st (dstr : ℚ → String) (n : Int) (st : PovOutput) (q : Quadruple) :
    (if q.segNr + 1 < n then
        out { segment dstr st q.segNr q.a0 q.a1 q.b0 q.b1 q.c0 q.c1 q.d0 q.d1 with
              nrNodes := (segment dstr st q.segNr q.a0 q.a1 q.b0 q.b1 q.c0 q.c1 q.d0 q.d1).nrNodes + 8 } ",\n"
      else
        out { segment dstr st q.segNr q.a0 q.a1 q.b0 q.b1 q.c0 q.c1 q.d0 q.d1 with
              nrNodes := (segment dstr st q.segNr q.a0 q.a1 q.b0 q.b1 q.c0 q.c1 q.d0 q.d1).nrNodes + 8 } "\n") =
      { st with nrNodes := st.nrNodes + 8, outbuf := st.outbuf ++ Quadruple.text dstr n q } := by
  rw [segment_eq]
  unfold Quadruple.text
  split_ifs <;> simp [out, String.append_assoc]

theorem curveStep_st (dstr : ℚ → String) (tf : Point → Point) (n : Int) (v : CurveVars)
    (bp : NArtBpath) :
    (curveStep dstr tf n v bp).st =
      { v.st with
        nrNodes := v.st.nrNodes + 8 * ((segmentCalls tf v.segmentNr v.lastx v.lasty [bp]).length : Int)
        outbuf := v.st.outbuf ++
          concat ((segmentCalls tf v.segmentNr v.lastx v.lasty [bp]).map (Quadruple.text dstr n)) } := by
  cases hc : bp.code
  · simp [curveStep, hc, segmentCalls, concat]
  · simp [curveStep, hc, segmentCalls, concat]
  · simp only [curveStep, hc, segmentCalls, concat, bound_st, List.map, List.foldr, List.length]
    rw [emit_st dstr n v.st ⟨v.segmentNr, v.lastx, v.lasty, _, _, _, _, _, _⟩]
    simp
  · simp only [curveStep, hc, segmentCalls, concat, bound_st, List.map, List.foldr, List.length]
    rw [emit_st dstr n v.st ⟨v.segmentNr, v.lastx, v.lasty, _, _, _, _, _, _⟩]
    simp
  · simp [curveStep, hc, segmentCalls, concat]

theorem concat_append (a b : List String) : concat (a ++ b) = concat a ++ concat b := by
  induction a with
  | nil => simp [concat]
  | cons s a ih =>
    have h : concat (s :: (a ++ b)) = s ++ concat (a ++ b) := rfl
    have h2 : concat (s :: a) = s ++ concat a := rfl
    rw [List.cons_append, h, ih, h2, String.append_assoc]

theorem segmentCalls_cons (tf : Point → Point) (s : Int) (x y : ℚ) (bp : NArtBpath)
    (rest : List NArtBpath) :
    segmentCalls tf s x y (bp :: rest) =
      segmentCalls tf s x y [bp] ++
        segmentCalls tf (s + ((segmentCalls tf s x y [bp]).length : Int))
          (tf (bp.c 3)).x (tf (bp.c 3)).y rest := by
  cases hc : bp.code <;> simp [segmentCalls, hc]

theorem curveStep_segmentNr (dstr : ℚ → String) (tf : Point → Point) (n : Int) (v : CurveVars)
    (bp : NArtBpath) :
    (curveStep dstr tf n v bp).segmentNr =
      v.segmentNr + ((segmentCalls tf v.segmentNr v.lastx v.lasty [bp]).length : Int) := by
  cases hc : bp.code <;> simp [curveStep, hc, segmentCalls, bound_segmentNr]

theorem curveStep_lastx (dstr : ℚ → String) (tf : Point → Point) (n : Int) (v : CurveVars)
    (bp : NArtBpath) : (curveStep dstr tf n v bp).lastx = (tf (bp.c 3)).x := by
  simp [curveStep]

theorem curveStep_lasty (dstr : ℚ → String) (tf : Point → Point) (n : Int) (v : CurveVars)
    (bp : NArtBpath) : (curveStep dstr tf n v bp).lasty = (tf (bp.c 3)).y := by
  simp [curveStep]

theorem curveLoop_st (dstr : ℚ → String) (tf : Point → Point) (n : Int) (l : List NArtBpath) :
    ∀ v : CurveVars, (curveLoop dstr tf n v l).st =
      { v.st with
        nrNodes := v.st.nrNodes + 8 * ((segmentCalls tf v.segmentNr v.lastx v.lasty l).length : Int)
        outbuf := v.st.outbuf ++
          concat ((segmentCalls tf v.segmentNr v.lastx v.lasty l).map (Quadruple.text dstr n)) } := by
  induction l with
  | nil => intro v; simp [curveLoop, segmentCalls, concat]
  | cons bp rest ih =>
    intro v
    have step : curveLoop dstr tf n v (bp :: rest) =
        curveLoop dstr tf n (curveStep dstr tf n v bp) rest := rfl
    rw [step, ih, curveStep_st, curveStep_segmentNr, curveStep_lastx, curveStep_lasty,
      segmentCalls_cons tf v.segmentNr v.lastx v.lasty bp rest]
    simp only [List.map_append, concat_append, List.length_append, String.append_assoc,
      Nat.cast_add]
    congr 1
    ring


theorem merge_st (d : DocVars) (v : CurveVars) : (d.merge v).st = d.st := by
  unfold DocVars.merge; dsimp only; split_ifs <;> rfl

theorem bound_cminx (v : CurveVars) : v.bound.cminx = min v.cminx v.lastx := by
  have h : v.bound.cminx = if v.lastx < v.cminx then v.lastx else v.cminx := by
    unfold CurveVars.bound; dsimp only; split_ifs <;> rfl
  rw [h, min_def]; split_ifs <;> linarith

theorem bound_cmaxx (v : CurveVars) : v.bound.cmaxx = max v.cmaxx v.lastx := by
  have h : v.bound.cmaxx = if v.lastx > v.cmaxx then v.lastx else v.cmaxx := by
    unfold CurveVars.bound; dsimp only; split_ifs <;> rfl
  rw [h, max_def]; split_ifs <;> linarith

theorem bound_cminy (v : CurveVars) : v.bound.cminy = min v.cminy v.lasty := by
  have h : v.bound.cminy = if v.lasty < v.cminy then v.lasty else v.cminy := by
    unfold CurveVars.bound; dsimp only; split_ifs <;> rfl
  rw [h, min_def]; split_ifs <;> linarith

theorem bound_cmaxy (v : CurveVars) : v.bound.cmaxy = max v.cmaxy v.lasty := by
  have h : v.bound.cmaxy = if v.lasty > v.cmaxy then v.lasty else v.cmaxy := by
    unfold CurveVars.bound; dsimp only; split_ifs <;> rfl
  rw [h, max_def]; split_ifs <;> linarith

theorem curveStep_cminx (dstr : ℚ → String) (tf : Point → Point) (n : Int) (v : CurveVars)
    (bp : NArtBpath) :
    (curveStep dstr tf n v bp).cminx =
      (segmentCalls tf v.segmentNr v.lastx v.lasty [bp]).foldl (fun m q => min m q.a0) v.cminx := by
  cases hc : bp.code <;> simp [curveStep, hc, segmentCalls, bound_cminx]

theorem curveStep_cmaxx (dstr : ℚ → String) (tf : Point → Point) (n : Int) (v : CurveVars)
    (bp : NArtBpath) :
    (curveStep dstr tf n v bp).cmaxx =
      (segmentCalls tf v.segmentNr v.lastx v.lasty [bp]).foldl (fun m q => max m q.a0) v.cmaxx := by
  cases hc : bp.code <;> simp [curveStep, hc, segmentCalls, bound_cmaxx]

theorem curveStep_cminy (dstr : ℚ → String) (tf : Point → Point) (n : Int) (v : CurveVars)
    (bp : NArtBpath) :
    (curveStep dstr tf n v bp).cminy =
      (segmentCalls tf v.segmentNr v.lastx v.lasty [bp]).foldl (fun m q => min m q.a1) v.cminy := by
  cases hc : bp.code <;> simp [curveStep, hc, segmentCalls, bound_cminy]

theorem curveStep_cmaxy (dstr : ℚ → String) (tf : Point → Point) (n : Int) (v : CurveVars)
    (bp : NArtBpath) :
    (curveStep dstr tf n v bp).cmaxy =
      (segmentCalls tf v.segmentNr v.lastx v.lasty [bp]).foldl (fun m q => max m q.a1) v.cmaxy := by
  cases hc : bp.code <;> simp [curveStep, hc, segmentCalls, bound_cmaxy]

theorem curveLoop_cminx (dstr : ℚ → String) (tf : Point → Point) (n : Int) (l : List NArtBpath) :
    ∀ v : CurveVars, (curveLoop dstr tf n v l).cminx =
      (segmentCalls tf v.segmentNr v.lastx v.lasty l).foldl (fun m q => min m q.a0) v.cminx := by
  induction l with
  | nil => intro v; rfl
  | cons bp rest ih =>
    intro v
    have step : curveLoop dstr tf n v (bp :: rest) =
        curveLoop dstr tf n (curveStep dstr tf n v bp) rest := rfl
    rw [step, ih, curveStep_cminx, curveStep_segmentNr, curveStep_lastx, curveStep_lasty,
      segmentCalls_cons tf v.segmentNr v.lastx v.lasty bp rest, List.foldl_append]

theorem curveLoop_cmaxx (dstr : ℚ → String) (tf : Point → Point) (n : Int) (l : List NArtBpath) :
    ∀ v : CurveVars, (curveLoop dstr tf n v l).cmaxx =
      (segmentCalls tf v.segmentNr v.lastx v.lasty l).foldl (fun m q => max m q.a0) v.cmaxx := by
  induction l with
  | nil => intro v; rfl
  | cons bp rest ih =>
    intro v
    have step : curveLoop dstr tf n v (bp :: rest) =
        curveLoop dstr tf n (curveStep dstr tf n v bp) rest := rfl
    rw [step, ih, curveStep_cmaxx, curveStep_segmentNr, curveStep_lastx, curveStep_lasty,
      segmentCalls_cons tf v.segmentNr v.lastx v.lasty bp rest, List.foldl_append]

theorem curveLoop_cminy (dstr : ℚ → String) (tf : Point → Point) (n : Int) (l : List NArtBpath) :
    ∀ v : CurveVars, (curveLoop dstr tf n v l).cminy =
      (segmentCalls tf v.segmentNr v.lastx v.lasty l).foldl (fun m q => min m q.a1) v.cminy := by
  induction l with
  | nil => intro v; rfl
  | cons bp rest ih =>
    intro v
    have step : curveLoop dstr tf n v (bp :: rest) =
        curveLoop dstr tf n (curveStep dstr tf n v bp) rest := rfl
    rw [step, ih, curveStep_cminy, curveStep_segmentNr, curveStep_lastx, curveStep_lasty,
      segmentCalls_cons tf v.segmentNr v.lastx v.lasty bp rest, List.foldl_append]

theorem curveLoop_cmaxy (dstr : ℚ → String) (tf : Point → Point) (n : Int) (l : List NArtBpath) :
    ∀ v : CurveVars, (curveLoop dstr tf n v l).cmaxy =
      (segmentCalls tf v.segmentNr v.lastx v.lasty l).foldl (fun m q => max m q.a1) v.cmaxy := by
  induction l with
  | nil => intro v; rfl
  | cons bp rest ih =>
    intro v
    have step : curveLoop dstr tf n v (bp :: rest) =
        curveLoop dstr tf n (curveStep dstr tf n v bp) rest := rfl
    rw [step, ih, curveStep_cmaxy, curveStep_segmentNr, curveStep_lastx, curveStep_lasty,
      segmentCalls_cons tf v.segmentNr v.lastx v.lasty bp rest, List.foldl_append]

theorem doShape_st (dstr : ℚ → String) (d : DocVars) (id : String) (shape : SPObject)
    (tf : Point → Point) (curve : SPCurve) :
    (doShape dstr d id shape tf curve).st =
      { nrNodes := d.st.nrNodes + 8 * ((segmentCalls tf 0 0 0 curve.bpath).length : Int)
        nrSegments := d.st.nrSegments + SP_CURVE_LENGTH curve
        nrShapes := d.st.nrShapes + 1
        outbuf := d.st.outbuf ++ shapeText dstr id shape tf curve
        povShapes := d.st.povShapes ++ [⟨id, shapeColor dstr shape⟩] } := by
  unfold shapeText doShape
  simp only [merge_st]
  by_cases hc : (shapeColor dstr shape).length > 0
  · simp [hc, endShape, declareBounds, prism, curveLoop_st, curveLoop_cminx, curveLoop_cmaxx,
      curveLoop_cminy, curveLoop_cmaxy, out, String.append_assoc]
  · simp [hc, endShape, declareBounds, prism, curveLoop_st, curveLoop_cminx, curveLoop_cmaxx,
      curveLoop_cminy, curveLoop_cmaxy, out, String.append_assoc]

theorem doNode_st (dstr : ℚ → String) (active : SPDocument) (d : DocVars) (n : Node) :
    (doNode dstr active d n).st =
      { nrNodes := d.st.nrNodes + 8 * ((([n].filterMap (qualify active)).map
            (fun e => ((segmentCalls e.2.2.1 0 0 0 e.2.2.2.bpath).length : Int))).sum)
        nrSegments := d.st.nrSegments +
          (([n].filterMap (qualify active)).map (fun e => SP_CURVE_LENGTH e.2.2.2)).sum
        nrShapes := d.st.nrShapes + (([n].filterMap (qualify active)).length : Int)
        outbuf := d.st.outbuf ++
          concat (([n].filterMap (qualify active)).map
            (fun e => shapeText dstr e.1 e.2.1 e.2.2.1 e.2.2.2))
        povShapes := d.st.povShapes ++
          ([n].filterMap (qualify active)).map (fun e => ⟨e.1, shapeColor dstr e.2.1⟩) } := by
  unfold doNode
  cases hq : qualify active n with
  | none => simp [List.filterMap, hq, concat]
  | some e =>
    obtain ⟨id, shape, tf, curve⟩ := e
    simp [List.filterMap, hq, concat, doShape_st]

theorem nodeFold_st (dstr : ℚ → String) (active : SPDocument) (results : List Node) :
    ∀ d : DocVars, (results.foldl (doNode dstr active) d).st =
      { nrNodes := d.st.nrNodes + 8 * (((results.filterMap (qualify active)).map
            (fun e => ((segmentCalls e.2.2.1 0 0 0 e.2.2.2.bpath).length : Int))).sum)
        nrSegments := d.st.nrSegments +
          ((results.filterMap (qualify active)).map (fun e => SP_CURVE_LENGTH e.2.2.2)).sum
        nrShapes := d.st.nrShapes + ((results.filterMap (qualify active)).length : Int)
        outbuf := d.st.outbuf ++
          concat ((results.filterMap (qualify active)).map
            (fun e => shapeText dstr e.1 e.2.1 e.2.2.1 e.2.2.2))
        povShapes := d.st.povShapes ++
          (results.filterMap (qualify active)).map (fun e => ⟨e.1, shapeColor dstr e.2.1⟩) } := by
  induction results with
  | nil => intro d; simp [concat]
  | cons n rest ih =>
    intro d
    have hsplit : (n :: rest).filterMap (qualify active) =
        [n].filterMap (qualify active) ++ rest.filterMap (qualify active) := by
      rw [← List.filterMap_append]; rfl
    rw [List.foldl_cons, ih, doNode_st, hsplit]
    simp only [List.map_append, List.sum_append, List.length_append, concat_append,
      String.append_assoc, List.append_assoc, Nat.cast_add]
    congr 1 <;> ring

theorem unionMember_eq (pfx : String) (st : PovOutput) (shape : PovShapeInfo) :
    unionMember pfx st shape =
      { st with outbuf := st.outbuf ++ (unionMember pfx ⟨0, 0, 0, "", []⟩ shape).outbuf } := by
  unfold unionMember
  by_cases hc : shape.color.length > 0 <;> simp [hc, out, String.append_assoc]

theorem unionMemberZ_eq (pfx : String) (st : PovOutput) (shape : PovShapeInfo) :
    unionMemberZ pfx st shape =
      { st with outbuf := st.outbuf ++ (unionMemberZ pfx ⟨0, 0, 0, "", []⟩ shape).outbuf } := by
  unfold unionMemberZ
  by_cases hc : shape.color.length > 0 <;> simp [hc, out, String.append_assoc]

theorem unionFold_eq (pfx : String) (l : List PovShapeInfo) :
    ∀ st : PovOutput, l.foldl (unionMember pfx) st =
      { st with outbuf := st.outbuf ++
          concat (l.map (fun s => (unionMember pfx ⟨0, 0, 0, "", []⟩ s).outbuf)) } := by
  induction l with
  | nil => intro st; simp [concat]
  | cons s rest ih =>
    intro st
    rw [List.foldl_cons, ih, unionMember_eq]
    simp [concat, String.append_assoc]

theorem unionFoldZ_eq (pfx : String) (l : List PovShapeInfo) :
    ∀ st : PovOutput, l.foldl (unionMemberZ pfx) st =
      { st with outbuf := st.outbuf ++
          concat (l.map (fun s => (unionMemberZ pfx ⟨0, 0, 0, "", []⟩ s).outbuf)) } := by
  induction l with
  | nil => intro st; simp [concat]
  | cons s rest ih =>
    intro st
    rw [List.foldl_cons, ih, unionMemberZ_eq]
    simp [concat, String.append_assoc]

theorem unionOpen_eq (st : PovOutput) :
    unionOpen st = { st with outbuf := st.outbuf ++ (unionOpen ⟨0, 0, 0, "", []⟩).outbuf } := by
  simp [unionOpen, out, String.append_assoc]

theorem unionZ_frame (dstr : ℚ → String) (d : DocVars) (st : PovOutput) :
    unionZ dstr d st =
      { st with outbuf := st.outbuf ++ (unionZ dstr d { st with outbuf := "" }).outbuf } := by
  simp [unionZ, out, unionFoldZ_eq, String.append_assoc]

theorem doUnion_frame (dstr : ℚ → String) (d : DocVars) :
    ∃ rest : String, doUnion dstr d =
      { d.st with outbuf := d.st.outbuf ++ ((unionOpen ⟨0, 0, 0, "", []⟩).outbuf ++
          (concat (d.st.povShapes.map (fun s => (unionMember "AllShapes" ⟨0, 0, 0, "", []⟩ s).outbuf)) ++
            (vsnprintf 4096 "\x7d\n\n\n\n" ++ rest))) } := by
  refine ⟨(unionZ dstr d { d.st with outbuf := "" }).outbuf, ?_⟩
  unfold doUnion
  simp only []
  rw [unionZ_frame, unionFold_eq, unionOpen_eq]
  simp [out, String.append_assoc]

mutual
theorem find_length_le (r : List Node) :
    ∀ (n : Node) (name : Option String), r.length ≤ (findElementsByTagName r n name).length
  | Node.mk nm i ch, name => by
    rw [findElementsByTagName]
    refine le_trans ?_ (children_length_le _ ch name)
    split_ifs <;> simp
theorem children_length_le (r : List Node) :
    ∀ (l : List Node) (name : Option String),
      r.length ≤ (findElementsByTagName.children r l name).length
  | [], _ => by simp [findElementsByTagName.children]
  | c :: rest, name => by
    rw [findElementsByTagName.children]
    exact le_trans (find_length_le r c name) (children_length_le _ rest name)
end

theorem find_all_ne_nil (n : Node) : findElementsByTagName [] n none ≠ [] := by
  cases n with
  | mk nm i ch =>
    intro h
    have h1 := children_length_le ([] ++ [Node.mk nm i ch]) ch none
    rw [findElementsByTagName] at h
    simp only [Option.isNone_none, Bool.true_or, if_true] at h
    rw [h] at h1
    simp at h1

theorem doCurves_eq (dstr : ℚ → String) (active : SPDocument) (st : PovOutput)
    (doc : SPDocument) :
    doCurves dstr active st doc =
      if (nodeLoop dstr active st (findElementsByTagName [] active.rroot none)).st.povShapes.length > 0
      then doUnion dstr (nodeLoop dstr active st (findElementsByTagName [] active.rroot none))
      else (nodeLoop dstr active st (findElementsByTagName [] active.rroot none)).st := by
  unfold doCurves
  by_cases h : (findElementsByTagName [] active.rroot none).length = 0
  · have h0 : findElementsByTagName [] active.rroot none = [] := List.length_eq_zero.mp h
    exact absurd h0 (find_all_ne_nil active.rroot)
  · simp only [h, if_false]

theorem shapeText_head (dstr : ℚ → String) (id : String) (shape : SPObject)
    (tf : Point → Point) (curve : SPCurve) :
    ∃ rest : String, shapeText dstr id shape tf curve =
      "/*###################################################\n" ++
        (vsnprintf 4096 ("### PRISM:  " ++ id ++ "\n") ++
          ("###################################################*/\n" ++
            (vsnprintf 4096 ("#declare " ++ id ++ " = prism \x7b\n") ++ rest))) := by
  unfold shapeText doShape
  simp only [merge_st]
  by_cases hc : (shapeColor dstr shape).length > 0
  · simp (disch := decide) only [hc, if_true, endShape, declareBounds, prism, curveLoop_st, out,
      String.append_assoc, String.empty_append, vsnprintf_short]
    exact ⟨_, rfl⟩
  · simp (disch := decide) only [hc, if_false, endShape, declareBounds, prism, curveLoop_st, out,
      String.append_assoc, String.empty_append, vsnprintf_short]
    exact ⟨_, rfl⟩


theorem nodeFold_none (dstr : ℚ → String) (active : SPDocument) (results : List Node) :
    ∀ d : DocVars, (∀ n ∈ results, qualify active n = none) →
      results.foldl (doNode dstr active) d = d := by
  induction results with
  | nil => intro d _; rfl
  | cons n rest ih =>
    intro d h
    have hn : qualify active n = none := h n (List.mem_cons_self _ _)
    rw [List.foldl_cons]
    have : doNode dstr active d n = d := by simp [doNode, hn]
    rw [this]
    exact ih d (fun m hm => h m (List.mem_cons_of_mem _ hm))

theorem saveDocument_fst (dstr : ℚ → String) (VERSION created : String)
    (active : SPDocument) (fs : FileSystem) (st : PovOutput) (doc : SPDocument) (uri : String) :
    (saveDocument dstr VERSION created active fs st doc uri).1 =
      saveDocument.buffer dstr VERSION created active st doc := by
  unfold saveDocument
  dsimp only
  split_ifs <;> rfl


theorem doCurves_counters (dstr : ℚ → String) (active : SPDocument) (st : PovOutput)
    (doc : SPDocument) :
    ∃ text : String, doCurves dstr active st doc =
      { (nodeLoop dstr active st (findElementsByTagName [] active.rroot none)).st with
        outbuf := text } := by
  rw [doCurves_eq]
  split_ifs with h
  · obtain ⟨rest, hr⟩ := doUnion_frame dstr
      (nodeLoop dstr active st (findElementsByTagName [] active.rroot none))
    exact ⟨_, hr⟩
  · exact ⟨_, rfl⟩

set_option maxRecDepth 8192 in
theorem buffer_eq (dstr : ℚ → String) (VERSION created : String) (active : SPDocument)
    (st : PovOutput) (doc : SPDocument) :
    saveDocument.buffer dstr VERSION created active st doc =
      { nrNodes := 8 * ((((findElementsByTagName [] active.rroot none).filterMap
            (qualify active)).map
              (fun e => ((segmentCalls e.2.2.1 0 0 0 e.2.2.2.bpath).length : Int))).sum)
        nrSegments := (((findElementsByTagName [] active.rroot none).filterMap
            (qualify active)).map (fun e => SP_CURVE_LENGTH e.2.2.2)).sum
        nrShapes := (((findElementsByTagName [] active.rroot none).filterMap
            (qualify active)).length : Int)
        povShapes := ((findElementsByTagName [] active.rroot none).filterMap
            (qualify active)).map (fun e => ⟨e.1, shapeColor dstr e.2.1⟩)
        outbuf :=
          "/*###################################################################\n### This PovRay document was generated by Inkscape\n### http://www.inkscape.org\n" ++
          (vsnprintf 4096 ("### Created: " ++ created) ++
          (vsnprintf 4096 ("### Version: " ++ VERSION ++ "\n") ++
          ("#####################################################################\n### NOTES:\n### ============\n### POVRay information can be found at\n### http://www.povray.org\n###\n### The 'AllShapes' objects at the bottom are provided as a\n### preview of how the output would look in a trace.  However,\n### the main intent of this file is to provide the individual\n### shapes for inclusion in a POV project.\n###\n### For an example of how to use this file, look at\n### share/examples/istest.pov\n###################################################################*/\n\n\n/*###################################################################\n##   Exports in this file\n##==========================\n" ++
          (vsnprintf 4096 ("##    Shapes   : " ++ fmt_d (((findElementsByTagName [] active.rroot none).filterMap
            (qualify active)).length : Int) ++ "\n") ++
          (vsnprintf 4096 ("##    Segments : " ++ fmt_d ((((findElementsByTagName [] active.rroot none).filterMap
            (qualify active)).map (fun e => SP_CURVE_LENGTH e.2.2.2)).sum) ++ "\n") ++
          (vsnprintf 4096 ("##    Nodes    : " ++ fmt_d (8 * ((((findElementsByTagName [] active.rroot none).filterMap
            (qualify active)).map
              (fun e => ((segmentCalls e.2.2.1 0 0 0 e.2.2.2.bpath).length : Int))).sum)) ++ "\n") ++
          ("###################################################################*/\n\n\n\n" ++
          ((doCurves dstr active ⟨0, 0, 0, "", []⟩ doc).outbuf ++
          "\n\n/*###################################################################\n### E N D    F I L E\n###################################################################*/\n\n\n")))))))) } := by
  obtain ⟨text, ht⟩ := doCurves_counters dstr active ⟨0, 0, 0, "", []⟩ doc
  have hr : reset st = ⟨0, 0, 0, "", []⟩ := rfl
  unfold saveDocument.buffer
  simp only [hr, ht]
  unfold nodeLoop
  rw [nodeFold_st]
  simp (disch := decide) only [doHeader, doTail, out, append,
    String.append_assoc, vsnprintf_short, String.reduceAppend, String.empty_append,
    String.append_empty, zero_add, List.nil_append]

theorem exRectDoc_exports :
    (findElementsByTagName [] exRectDoc.rroot none).filterMap (qualify exRectDoc) =
      [("rect1", exRectShape, exTf, exRect)] := by
  simp [findElementsByTagName, findElementsByTagName.children, exRectDoc, List.filterMap,
    qualify, Node.attributeId, exRectShape, SP_IS_ITEM, SP_IS_SHAPE, SPObject.kind,
    SPObject.curve, sp_curve_empty, exRect, sp_item_i2d_affine]

theorem exRect_calls :
    segmentCalls exTf 0 0 0 exRect.bpath =
      [⟨0, 12, 6, 12, 6, 20, 6, 20, 6⟩, ⟨1, 20, 6, 20, 6, 20, 12, 20, 12⟩,
       ⟨2, 20, 12, 20, 12, 12, 12, 12, 12⟩, ⟨3, 12, 12, 12, 12, 12, 6, 12, 6⟩] := by
  simp [segmentCalls, exRect, exTf, NArtBpath.c]
  norm_num

theorem mid_prepend (a s x : String) (h : ∃ pre post : String, s = pre ++ (x ++ post)) :
    ∃ pre post : String, a ++ s = pre ++ (x ++ post) := by
  obtain ⟨pre, post, h⟩ := h
  exact ⟨a ++ pre, post, by rw [h, String.append_assoc]⟩

theorem mid_here (x post : String) : ∃ pre post' : String, x ++ post = pre ++ (x ++ post') :=
  ⟨"", post, by simp⟩


theorem prism_cminx (dstr : ℚ → String) (st : PovOutput) (id : String) (tf : Point → Point)
    (curve : SPCurve) :
    (prism dstr st id tf curve).cminx =
      (segmentCalls tf 0 0 0 curve.bpath).foldl (fun m q => min m q.a0) bignum := by
  simp [prism, curveLoop_cminx]

theorem prism_cmaxx (dstr : ℚ → String) (st : PovOutput) (id : String) (tf : Point → Point)
    (curve : SPCurve) :
    (prism dstr st id tf curve).cmaxx =
      (segmentCalls tf 0 0 0 curve.bpath).foldl (fun m q => max m q.a0) (-bignum) := by
  simp [prism, curveLoop_cmaxx]

theorem prism_cminy (dstr : ℚ → String) (st : PovOutput) (id : String) (tf : Point → Point)
    (curve : SPCurve) :
    (prism dstr st id tf curve).cminy =
      (segmentCalls tf 0 0 0 curve.bpath).foldl (fun m q => min m q.a1) bignum := by
  simp [prism, curveLoop_cminy]

theorem prism_cmaxy (dstr : ℚ → String) (st : PovOutput) (id : String) (tf : Point → Point)
    (curve : SPCurve) :
    (prism dstr st id tf curve).cmaxy =
      (segmentCalls tf 0 0 0 curve.bpath).foldl (fun m q => max m q.a1) (-bignum) := by
  simp [prism, curveLoop_cmaxy]

theorem prism_st (dstr : ℚ → String) (st : PovOutput) (id : String) (tf : Point → Point)
    (curve : SPCurve) :
    (prism dstr st id tf curve).st =
      { st with
        nrNodes := st.nrNodes + 8 * ((segmentCalls tf 0 0 0 curve.bpath).length : Int)
        nrSegments := st.nrSegments + SP_CURVE_LENGTH curve
        outbuf := st.outbuf ++
          ("/*###################################################\n" ++
          (vsnprintf 4096 ("### PRISM:  " ++ id ++ "\n") ++
          ("###################################################*/\n" ++
          (vsnprintf 4096 ("#declare " ++ id ++ " = prism \x7b\n") ++
          ("    linear_sweep\n    bezier_spline\n    1.0, //top\n    0.0, //bottom\n" ++
          (vsnprintf 4096 ("    " ++ fmt_d (countSegments 0 curve.bpath * 4) ++ " //nr points\n") ++
          concat ((segmentCalls tf 0 0 0 curve.bpath).map
            (Quadruple.text dstr (countSegments 0 curve.bpath))))))))) } := by
  simp (disch := decide) only [prism, curveLoop_st, out, String.append_assoc, vsnprintf_short,
    String.reduceAppend]

theorem shapeText_eq (dstr : ℚ → String) (id : String) (shape : SPObject)
    (tf : Point → Point) (curve : SPCurve) :
    shapeText dstr id shape tf curve =
      "/*###################################################\n" ++
      (vsnprintf 4096 ("### PRISM:  " ++ id ++ "\n") ++
      ("###################################################*/\n" ++
      (vsnprintf 4096 ("#declare " ++ id ++ " = prism \x7b\n") ++
      ("    linear_sweep\n    bezier_spline\n    1.0, //top\n    0.0, //bottom\n" ++
      (vsnprintf 4096 ("    " ++ fmt_d (countSegments 0 curve.bpath * 4) ++ " //nr points\n") ++
      (concat ((segmentCalls tf 0 0 0 curve.bpath).map
        (Quadruple.text dstr (countSegments 0 curve.bpath))) ++
      ("\x7d\n" ++
      (vsnprintf 4096 ("#declare " ++ id ++ "_MIN_X    = " ++
        dstr (prism dstr ⟨0, 0, 0, "", []⟩ id tf curve).cminx ++ ";\n") ++
      (vsnprintf 4096 ("#declare " ++ id ++ "_CENTER_X = " ++
        dstr (((prism dstr ⟨0, 0, 0, "", []⟩ id tf curve).cmaxx +
          (prism dstr ⟨0, 0, 0, "", []⟩ id tf curve).cminx) / 2) ++ ";\n") ++
      (vsnprintf 4096 ("#declare " ++ id ++ "_MAX_X    = " ++
        dstr (prism dstr ⟨0, 0, 0, "", []⟩ id tf curve).cmaxx ++ ";\n") ++
      (vsnprintf 4096 ("#declare " ++ id ++ "_WIDTH    = " ++
        dstr ((prism dstr ⟨0, 0, 0, "", []⟩ id tf curve).cmaxx -
          (prism dstr ⟨0, 0, 0, "", []⟩ id tf curve).cminx) ++ ";\n") ++
      (vsnprintf 4096 ("#declare " ++ id ++ "_MIN_Y    = " ++
        dstr (prism dstr ⟨0, 0, 0, "", []⟩ id tf curve).cminy ++ ";\n") ++
      (vsnprintf 4096 ("#declare " ++ id ++ "_CENTER_Y = " ++
        dstr (((prism dstr ⟨0, 0, 0, "", []⟩ id tf curve).cmaxy +
          (prism dstr ⟨0, 0, 0, "", []⟩ id tf curve).cminy) / 2) ++ ";\n") ++
      (vsnprintf 4096 ("#declare " ++ id ++ "_MAX_Y    = " ++
        dstr (prism dstr ⟨0, 0, 0, "", []⟩ id tf curve).cmaxy ++ ";\n") ++
      (vsnprintf 4096 ("#declare " ++ id ++ "_HEIGHT   = " ++
        dstr ((prism dstr ⟨0, 0, 0, "", []⟩ id tf curve).cmaxy -
          (prism dstr ⟨0, 0, 0, "", []⟩ id tf curve).cminy) ++ ";\n") ++
      ((if (shapeColor dstr shape).length > 0 then
          vsnprintf 4096 ("#declare " ++ id ++ "_COLOR    = " ++ shapeColor dstr shape ++ ";\n")
        else "") ++
      ("/*###################################################\n" ++
      (vsnprintf 4096 ("### end " ++ id ++ "\n") ++
      "###################################################*/\n\n\n\n")))))))))))))))))) := by
  unfold shapeText doShape
  simp only [merge_st]
  by_cases hc : (shapeColor dstr shape).length > 0
  · simp (disch := decide) only [hc, if_true, endShape, declareBounds, prism_st, prism_cminx,
      prism_cmaxx, prism_cminy, prism_cmaxy, out, String.append_assoc, String.empty_append,
      vsnprintf_short]
  · simp (disch := decide) only [hc, if_false, endShape, declareBounds, prism_st, prism_cminx,
      prism_cmaxx, prism_cminy, prism_cmaxy, out, String.append_assoc, String.empty_append,
      vsnprintf_short]

theorem closedPath4_calls (tf : Point → Point) (p0 p1 p2 p3 : Point) :
    segmentCalls tf 0 0 0 (closedPath4 p0 p1 p2 p3).bpath =
      [⟨0, (tf p0).x, (tf p0).y, (tf p0).x, (tf p0).y, (tf p1).x, (tf p1).y, (tf p1).x, (tf p1).y⟩,
       ⟨1, (tf p1).x, (tf p1).y, (tf p1).x, (tf p1).y, (tf p2).x, (tf p2).y, (tf p2).x, (tf p2).y⟩,
       ⟨2, (tf p2).x, (tf p2).y, (tf p2).x, (tf p2).y, (tf p3).x, (tf p3).y, (tf p3).x, (tf p3).y⟩,
       ⟨3, (tf p3).x, (tf p3).y, (tf p3).x, (tf p3).y, (tf p0).x, (tf p0).y, (tf p0).x, (tf p0).y⟩] := by
  simp [segmentCalls, closedPath4, NArtBpath.c]


theorem closedPath4_bounds (dstr : ℚ → String) (st : PovOutput) (id : String)
    (tf : Point → Point) (p0 p1 p2 p3 : Point) :
    (prism dstr st id tf (closedPath4 p0 p1 p2 p3)).cminx =
        min bignum (min (min (min (tf p0).x (tf p1).x) (tf p2).x) (tf p3).x) ∧
      (prism dstr st id tf (closedPath4 p0 p1 p2 p3)).cmaxx =
        max (-bignum) (max (max (max (tf p0).x (tf p1).x) (tf p2).x) (tf p3).x) ∧
      (prism dstr st id tf (closedPath4 p0 p1 p2 p3)).cminy =
        min bignum (min (min (min (tf p0).y (tf p1).y) (tf p2).y) (tf p3).y) ∧
      (prism dstr st id tf (closedPath4 p0 p1 p2 p3)).cmaxy =
        max (-bignum) (max (max (max (tf p0).y (tf p1).y) (tf p2).y) (tf p3).y) := by
  rw [prism_cminx, prism_cmaxx, prism_cminy, prism_cmaxy, closedPath4_calls]
  simp only [List.foldl, min_assoc, max_assoc, and_self]

theorem suffix_prepend (a s t : String) (h : ∃ pre : String, s = pre ++ t) :
    ∃ pre : String, a ++ s = pre ++ t := by
  obtain ⟨pre, h⟩ := h
  exact ⟨a ++ pre, by rw [h, String.append_assoc]⟩

theorem suffix_here (t : String) : ∃ pre : String, t = pre ++ t := ⟨"", by simp⟩

/-- The eight scalars `doCurves` declares behind the prism of a shape are the
bounds the loop over the commands ends with, their mean and their
difference. -/
theorem shapeText_bounds (dstr : ℚ → String) (id : String) (shape : SPObject)
    (tf : Point → Point) (curve : SPCurve) :
    ∃ pre post : String, shapeText dstr id shape tf curve = pre ++
      (vsnprintf 4096 ("#declare " ++ id ++ "_MIN_X    = " ++
        dstr (prism dstr ⟨0, 0, 0, "", []⟩ id tf curve).cminx ++ ";\n") ++
      (vsnprintf 4096 ("#declare " ++ id ++ "_CENTER_X = " ++
        dstr (((prism dstr ⟨0, 0, 0, "", []⟩ id tf curve).cmaxx +
          (prism dstr ⟨0, 0, 0, "", []⟩ id tf curve).cminx) / 2) ++ ";\n") ++
      (vsnprintf 4096 ("#declare " ++ id ++ "_MAX_X    = " ++
        dstr (prism dstr ⟨0, 0, 0, "", []⟩ id tf curve).cmaxx ++ ";\n") ++
      (vsnprintf 4096 ("#declare " ++ id ++ "_WIDTH    = " ++
        dstr ((prism dstr ⟨0, 0, 0, "", []⟩ id tf curve).cmaxx -
          (prism dstr ⟨0, 0, 0, "", []⟩ id tf curve).cminx) ++ ";\n") ++
      (vsnprintf 4096 ("#declare " ++ id ++ "_MIN_Y    = " ++
        dstr (prism dstr ⟨0, 0, 0, "", []⟩ id tf curve).cminy ++ ";\n") ++
      (vsnprintf 4096 ("#declare " ++ id ++ "_CENTER_Y = " ++
        dstr (((prism dstr ⟨0, 0, 0, "", []⟩ id tf curve).cmaxy +
          (prism dstr ⟨0, 0, 0, "", []⟩ id tf curve).cminy) / 2) ++ ";\n") ++
      (vsnprintf 4096 ("#declare " ++ id ++ "_MAX_Y    = " ++
        dstr (prism dstr ⟨0, 0, 0, "", []⟩ id tf curve).cmaxy ++ ";\n") ++
      (vsnprintf 4096 ("#declare " ++ id ++ "_HEIGHT   = " ++
        dstr ((prism dstr ⟨0, 0, 0, "", []⟩ id tf curve).cmaxy -
          (prism dstr ⟨0, 0, 0, "", []⟩ id tf curve).cminy) ++ ";\n") ++ post)))))))) := by
  rw [exists_comm]
  apply Exists.intro
  rw [shapeText_eq]
  exact suffix_prepend _ _ _ (suffix_prepend _ _ _ (suffix_prepend _ _ _ (suffix_prepend _ _ _
    (suffix_prepend _ _ _ (suffix_prepend _ _ _ (suffix_prepend _ _ _ (suffix_prepend _ _ _
      (suffix_here _))))))))

theorem exDstr_million : exDstr 1000000 = "1000000" := by
  have h : fmt_d 1000000 = "1000000" := by decide
  simp [exDstr, h]


theorem shapeColor_flat (dstr : ℚ → String) (shape : SPObject) (style : SPStyle)
    (hs : shape.style = some style) (hf : style.fill_type = SP_PAINT_TYPE_COLOR) :
    shapeColor dstr shape =
      "rgbf <" ++ dstr style.rgb0 ++ ", " ++ dstr style.rgb1 ++ ", " ++ dstr style.rgb2 ++ ", " ++
        dstr (1 - dopacity style shape) ++ ">" := by
  simp [shapeColor, hs, hf]

theorem shapeColor_flat_length (dstr : ℚ → String) (shape : SPObject) (style : SPStyle)
    (hs : shape.style = some style) (hf : style.fill_type = SP_PAINT_TYPE_COLOR) :
    (shapeColor dstr shape).length > 0 := by
  rw [shapeColor_flat dstr shape style hs hf]
  have h6 : "rgbf <".length = 6 := by decide
  simp only [String.length_append, h6]
  omega

theorem shapeColor_other (dstr : ℚ → String) (shape : SPObject)
    (h : shape.style = none ∨
      ∃ style : SPStyle, shape.style = some style ∧ style.fill_type ≠ SP_PAINT_TYPE_COLOR) :
    shapeColor dstr shape = "" := by
  rcases h with h | ⟨style, hs, hf⟩
  · simp [shapeColor, h]
  · simp [shapeColor, hs, hf]


theorem ancestors_none (k : SPKind) (s : Option SPStyle) (t : Point → Point)
    (c : Option SPCurve) : (SPObject.mk k s none t c).ancestors = [] := by
  simp [SPObject.ancestors]

theorem ancestors_some (k : SPKind) (s : Option SPStyle) (p : SPObject) (t : Point → Point)
    (c : Option SPCurve) : (SPObject.mk k s (some p) t c).ancestors = p :: p.ancestors := by
  simp [SPObject.ancestors]

theorem effective_opacity_loop_eq (styles : List SPStyle) :
    ∀ (obj : SPObject) (ret : ℚ) (style : SPStyle), obj.style = some style →
      obj.ancestors.map SPObject.style = styles.map some →
      effective_opacity.loop ret obj = ret * (style.opacity * (styles.map SPStyle.opacity).prod) := by
  induction styles with
  | nil =>
    intro obj ret style hs ha
    cases obj with
    | mk k s p t c =>
      cases p with
      | none =>
        simp only [SPObject.style] at hs
        simp [effective_opacity.loop, hs]
      | some q => simp [ancestors_some] at ha
  | cons s1 rest ih =>
    intro obj ret style hs ha
    cases obj with
    | mk k s p t c =>
      cases p with
      | none => simp [ancestors_none] at ha
      | some q =>
        simp only [SPObject.style] at hs
        rw [ancestors_some] at ha
        simp only [List.map_cons, List.cons.injEq] at ha
        have hl : effective_opacity.loop ret (SPObject.mk k s (some q) t c) =
            effective_opacity.loop (ret * style.opacity) q := by
          simp [effective_opacity.loop, hs]
        rw [hl, ih q (ret * style.opacity) s1 ha.1 ha.2]
        simp only [List.map_cons, List.prod_cons]
        ring


theorem unionOpen_text :
    (unionOpen ⟨0, 0, 0, "", []⟩).outbuf =
      "/*###################################################\n### UNION OF ALL SHAPES IN DOCUMENT\n###################################################*/\n\n\n/**\n * Allow the user to redefine the finish\x7b\x7d\n * by declaring it before #including this file\n */\n#ifndef (AllShapes_Finish)\n#declare AllShapes_Finish = finish \x7b\n    phong 0.5\n    reflection 0.3\n    specular 0.5\n\x7d\n#end\n\n\n#declare AllShapes = union \x7b\n" := by
  simp (disch := decide) only [unionOpen, out, String.append_assoc, vsnprintf_short,
    String.reduceAppend, String.empty_append]

theorem unionMember_text (shape : PovShapeInfo) :
    (unionMember "AllShapes" ⟨0, 0, 0, "", []⟩ shape).outbuf =
      vsnprintf 4096 ("    object \x7b " ++ shape.id ++ "\n") ++
      ("        texture \x7b \n" ++
      ((if shape.color.length > 0 then
          vsnprintf 4096 ("            pigment \x7b " ++ shape.color ++ " \x7d\n")
        else "            pigment \x7b rgb <0,0,0> \x7d\n") ++
      "            finish \x7b AllShapes_Finish \x7d\n            \x7d \n        \x7d \n")) := by
  unfold unionMember
  by_cases hc : shape.color.length > 0
  · simp (disch := decide) only [hc, if_true, out, String.append_assoc, vsnprintf_short,
      String.reduceAppend, String.empty_append]
  · simp (disch := decide) only [hc, if_false, out, String.append_assoc, vsnprintf_short,
      String.reduceAppend, String.empty_append]


theorem buffer_reset (dstr : ℚ → String) (VERSION created : String) (active : SPDocument)
    (st1 st2 : PovOutput) (doc : SPDocument) :
    saveDocument.buffer dstr VERSION created active st1 doc =
      saveDocument.buffer dstr VERSION created active st2 doc := by
  rw [buffer_eq, buffer_eq]


mutual
theorem find_eq_preorder :
    ∀ (n : Node) (name : Option String) (r : List Node),
      findElementsByTagName r n name = r ++ (preorder n).filter (passesFilter name)
  | Node.mk nm i ch, name, r => by
    rw [findElementsByTagName, children_eq_preorder ch name, preorder]
    cases name with
    | none => simp [passesFilter]
    | some f =>
      by_cases h : nm = f
      · simp [passesFilter, Node.name, h]
      · have h2 : ¬ (f = nm) := fun e => h e.symm
        simp [passesFilter, Node.name, h, h2]
theorem children_eq_preorder :
    ∀ (l : List Node) (name : Option String) (r : List Node),
      findElementsByTagName.children r l name =
        r ++ (preorder.children l).filter (passesFilter name)
  | [], _, r => by simp [findElementsByTagName.children, preorder.children]
  | c :: rest, name, r => by
    rw [findElementsByTagName.children, find_eq_preorder c name,
      children_eq_preorder rest name, preorder.children]
    simp
end

theorem qualify_id (active : SPDocument) (n : Node)
    (e : String × SPObject × (Point → Point) × SPCurve) (h : qualify active n = some e) :
    n.attributeId = some e.1 := by
  unfold qualify at h
  cases hi : n.attributeId with
  | none => simp [hi] at h
  | some id =>
    simp only [hi] at h
    cases ho : active.getObjectByRepr n with
    | none => simp [ho] at h
    | some obj =>
      simp only [ho] at h
      split_ifs at h
      cases hc : obj.curve with
      | none => simp [hc] at h
      | some curve =>
        simp only [hc] at h
        split_ifs at h
        simp only [Option.some.injEq] at h
        rw [← h]

theorem exported_ids (active : SPDocument) (l : List Node) :
    (l.filterMap (qualify active)).map (fun e => some e.1) =
      (l.filter (fun n => (qualify active n).isSome)).map Node.attributeId := by
  induction l with
  | nil => rfl
  | cons n rest ih =>
    cases hq : qualify active n with
    | none => simp [List.filterMap_cons, List.filter_cons, hq, ih]
    | some e =>
      have hid := qualify_id active n e hq
      simp [List.filterMap_cons, List.filter_cons, hq, ih, hid]

theorem exTwinDoc_exports :
    (findElementsByTagName [] exTwinDoc.rroot none).filterMap (qualify exTwinDoc) =
      [("twin", SPObject.mk SPKind.shape none none (fun p => p) (some exTriangle),
          (fun p => p), exTriangle),
       ("twin", SPObject.mk SPKind.shape none none (fun p => p) (some exRect),
          (fun p => p), exRect)] := by
  simp [findElementsByTagName, findElementsByTagName.children, exTwinDoc, List.filterMap,
    qualify, Node.attributeId, Node.name, SP_IS_ITEM, SP_IS_SHAPE, SPObject.kind,
    SPObject.curve, sp_curve_empty, exRect, exTriangle, sp_item_i2d_affine]

theorem segmentCalls_eq_walkMoving (tf : Point → Point) (l : List NArtBpath) :
    ∀ (n : Int) (x y : ℚ), segmentCalls tf n x y l = walkMoving tf n ⟨x, y⟩ l := by
  induction l with
  | nil => intro n x y; rfl
  | cons bp rest ih =>
    intro n x y
    cases hc : bp.code <;> simp [segmentCalls, walkMoving, hc, ih]

theorem segmentCalls_segNr (tf : Point → Point) (l : List NArtBpath) :
    ∀ (n : Int) (x y : ℚ), (segmentCalls tf n x y l).map Quadruple.segNr =
      (List.range (segmentCalls tf n x y l).length).map (fun (i : Nat) => n + (i : Int)) := by
  induction l with
  | nil => intro n x y; rfl
  | cons bp rest ih =>
    intro n x y
    cases hc : bp.code <;>
      simp [segmentCalls, hc, ih, List.range_succ_eq_map, List.map_map, Function.comp_def,
        add_assoc, add_comm (1 : Int)]

theorem countSegments_eq (tf : Point → Point) (l : List NArtBpath) :
    ∀ (a n : Int) (x y : ℚ),
      countSegments a l = a + ((segmentCalls tf n x y l).length : Int) := by
  induction l with
  | nil => intro a n x y; simp [countSegments, segmentCalls]
  | cons bp rest ih =>
    intro a n x y
    cases hc : bp.code <;> simp [countSegments, segmentCalls, hc]
    · exact ih a n _ _
    · exact ih a n _ _
    · rw [ih (a + 1) (n + 1) _ _]; ring
    · rw [ih (a + 1) (n + 1) _ _]; ring
    · exact ih a n _ _

theorem exStroke_calls :
    segmentCalls exTf 0 0 0 exStroke.bpath = [⟨0, 12, 6, 12, 6, 20, 12, 20, 12⟩] := by
  simp [segmentCalls, exStroke, exTf, NArtBpath.c]
  norm_num

theorem exDstr_int (n : Int) : exDstr (n : ℚ) = fmt_d n := by
  simp [exDstr]

theorem exTwoStrokes_calls :
    segmentCalls exTf 0 0 0 exTwoStrokes.bpath =
      [⟨0, 12, 6, 12, 6, 20, 6, 20, 6⟩, ⟨1, 24, 21, 24, 21, 28, 27, 28, 27⟩] := by
  simp [segmentCalls, exTwoStrokes, exTf, NArtBpath.c]
  norm_num

theorem segmentCalls_map_enum (tf : Point → Point) (F : Int → Quadruple → String)
    (l : List NArtBpath) :
    ∀ (k : Nat) (x y : ℚ),
      (segmentCalls tf (k : Int) x y l).map (fun q => F q.segNr q) =
        ((segmentCalls tf (k : Int) x y l).enumFrom k).map (fun iq => F (iq.1 : Int) iq.2) := by
  induction l with
  | nil => intro k x y; rfl
  | cons bp rest ih =>
    intro k x y
    cases hc : bp.code
    · simpa [segmentCalls, hc] using ih k _ _
    · simpa [segmentCalls, hc] using ih k _ _
    · have h := ih (k + 1) (tf (bp.c 3)).x (tf (bp.c 3)).y
      simp only [Nat.cast_add, Nat.cast_one] at h
      simp [segmentCalls, hc, List.enumFrom_cons, h]
    · have h := ih (k + 1) (tf (bp.c 3)).x (tf (bp.c 3)).y
      simp only [Nat.cast_add, Nat.cast_one] at h
      simp [segmentCalls, hc, List.enumFrom_cons, h]
    · simpa [segmentCalls, hc] using ih k _ _

theorem stroke_calls (tf : Point → Point) (p q : Point) :
    segmentCalls tf 0 0 0 (stroke p q).bpath =
      [⟨0, (tf p).x, (tf p).y, (tf p).x, (tf p).y, (tf q).x, (tf q).y, (tf q).x, (tf q).y⟩] := by
  simp [segmentCalls, stroke, NArtBpath.c]

/-! ## The nodes that are exported -/

/-- C1, as stated, fails: a node whose attribute `id` is present and empty
fails check (a) of the claim, and still `doCurves` exports it, with an entry
in the shape list and the declaration of a prism without name. -/
theorem doNode_exports_empty_id :
    exEmptyIdNode.attributeId = some "" ∧
    (doNode exDstr exEmptyIdDoc exStart exEmptyIdNode).st.povShapes = [⟨"", ""⟩] ∧
    (doNode exDstr exEmptyIdDoc exStart exEmptyIdNode).st.nrShapes = 1 ∧
    ∃ rest : String, (doNode exDstr exEmptyIdDoc exStart exEmptyIdNode).st.outbuf =
      "/*###################################################\n### PRISM:  \n###################################################*/\n#declare  = prism \x7b\n" ++ rest := by
  have hq : qualify exEmptyIdDoc exEmptyIdNode =
      some ("", SPObject.mk SPKind.shape none none (fun p => p) (some exTriangle),
        (fun p => p), exTriangle) := by
    simp [qualify, exEmptyIdDoc, exEmptyIdNode, Node.attributeId, SP_IS_ITEM, SP_IS_SHAPE,
      SPObject.kind, SPObject.curve, sp_curve_empty, exTriangle, sp_item_i2d_affine]
  refine ⟨rfl, ?_, ?_, ?_⟩
  · rw [doNode_st]; simp [hq, exStart, shapeColor, SPObject.style]
  · rw [doNode_st]; simp [hq, exStart]
  · obtain ⟨rest, hr⟩ := shapeText_head exDstr ""
      (SPObject.mk SPKind.shape none none (fun p => p) (some exTriangle)) (fun p => p) exTriangle
    refine ⟨rest, ?_⟩
    rw [doNode_st]
    simp (disch := decide) only [hq, exStart, concat, List.filterMap, List.map, List.foldr,
      String.append_assoc, String.empty_append, String.append_empty, sp_item_i2d_affine]
    rw [hr]
    simp (disch := decide) only [String.append_assoc, String.empty_append, String.append_empty,
      vsnprintf_short, String.reduceAppend]
    simp only [← String.append_assoc, String.reduceAppend]

/-- C1 (amended): a collected node is exported exactly when it passes the four
checks of the loop body, the first of which asks for an `id` attribute that is
present (it may be empty). A node with an `id`, an object that is an item and
a shape, and a curve that is not empty gets an entry in the shape list and the
declaration of a prism; a node that fails a check leaves the exporter and the
bounds as they were. -/
theorem doNode_exports_iff (dstr : ℚ → String) (active : SPDocument) (d : DocVars) (n : Node) :
    (∀ (id : String) (obj : SPObject) (curve : SPCurve),
        n.attributeId = some id → active.getObjectByRepr n = some obj →
        SP_IS_ITEM obj = true → SP_IS_SHAPE obj = true → obj.curve = some curve →
        sp_curve_empty curve = false →
        (doNode dstr active d n).st.povShapes = d.st.povShapes ++ [⟨id, shapeColor dstr obj⟩] ∧
        ∃ rest : String, (doNode dstr active d n).st.outbuf = d.st.outbuf ++
          ("/*###################################################\n" ++
            (vsnprintf 4096 ("### PRISM:  " ++ id ++ "\n") ++
              ("###################################################*/\n" ++
                (vsnprintf 4096 ("#declare " ++ id ++ " = prism \x7b\n") ++ rest))))) ∧
    ((n.attributeId = none ∨ active.getObjectByRepr n = none ∨
        ∃ obj : SPObject, active.getObjectByRepr n = some obj ∧
          (SP_IS_ITEM obj = false ∨ SP_IS_SHAPE obj = false ∨ obj.curve = none ∨
            ∃ curve : SPCurve, obj.curve = some curve ∧ sp_curve_empty curve = true)) →
      doNode dstr active d n = d) := by
  constructor
  · intro id obj curve h1 h2 h3 h4 h5 h6
    have hq : qualify active n = some (id, obj, sp_item_i2d_affine obj, curve) := by
      simp [qualify, h1, h2, h3, h4, h5, h6]
    obtain ⟨rest, hr⟩ := shapeText_head dstr id obj (sp_item_i2d_affine obj) curve
    rw [doNode_st]
    simp only [List.filterMap, hq, List.map, concat, List.foldr, String.append_empty]
    exact ⟨trivial, rest, by rw [hr]⟩
  · intro h
    have hq : qualify active n = none := by
      rcases h with h | h | ⟨obj, h0, h | h | h | ⟨curve, h, h'⟩⟩
      · simp [qualify, h]
      · cases hi : n.attributeId <;> simp [qualify, hi, h]
      · cases hi : n.attributeId <;> simp [qualify, hi, h0, h]
      · cases hi : n.attributeId <;> simp [qualify, hi, h0, h]
      · cases hi : n.attributeId <;> simp [qualify, hi, h0, h]
      · cases hi : n.attributeId <;> simp [qualify, hi, h0, h, h']
    simp [doNode, hq]


/-- C1 (amended) at the document whose only shape hangs on the node `rect1`:
that node is exported, the root, which has no `id`, is not. -/
theorem doNode_exports_iff_witness :
    (doNode exDstr exRectDoc exStart (Node.mk "svg:rect" (some "rect1") [])).st.povShapes =
      [⟨"rect1", shapeColor exDstr exRectShape⟩] ∧
    doNode exDstr exRectDoc exStart exRectDoc.rroot = exStart := by
  constructor
  · exact ((doNode_exports_iff exDstr exRectDoc exStart (Node.mk "svg:rect" (some "rect1") [])).1
      "rect1" exRectShape exRect rfl rfl rfl rfl rfl rfl).1
  · exact (doNode_exports_iff exDstr exRectDoc exStart exRectDoc.rroot).2 (Or.inl rfl)

/-! ## A document without shapes -/

set_option maxRecDepth 8192 in
/-- C2: when no collected node passes the four checks, the exporter ends with
all counters at zero and an empty shape list, and the text is the header, with
the counts 0, 0 and 0, followed at once by the footer; a file that can be
opened receives exactly this text. -/
theorem saveDocument_no_shape (dstr : ℚ → String) (VERSION created : String)
    (active : SPDocument) (fs : FileSystem) (st : PovOutput) (doc : SPDocument) (uri : String)
    (h : ∀ n ∈ findElementsByTagName [] active.rroot none, qualify active n = none) :
    (saveDocument dstr VERSION created active fs st doc uri).1 =
      { nrNodes := 0, nrSegments := 0, nrShapes := 0, povShapes := []
        outbuf :=
          "/*###################################################################\n### This PovRay document was generated by Inkscape\n### http://www.inkscape.org\n" ++
          (vsnprintf 4096 ("### Created: " ++ created) ++
          (vsnprintf 4096 ("### Version: " ++ VERSION ++ "\n") ++
          "#####################################################################\n### NOTES:\n### ============\n### POVRay information can be found at\n### http://www.povray.org\n###\n### The 'AllShapes' objects at the bottom are provided as a\n### preview of how the output would look in a trace.  However,\n### the main intent of this file is to provide the individual\n### shapes for inclusion in a POV project.\n###\n### For an example of how to use this file, look at\n### share/examples/istest.pov\n###################################################################*/\n\n\n/*###################################################################\n##   Exports in this file\n##==========================\n##    Shapes   : 0\n##    Segments : 0\n##    Nodes    : 0\n###################################################################*/\n\n\n\n\n\n/*###################################################################\n### E N D    F I L E\n###################################################################*/\n\n\n")) } ∧
    (fs.canOpen uri = true →
      (saveDocument dstr VERSION created active fs st doc uri).2.content uri =
        some (saveDocument dstr VERSION created active fs st doc uri).1.outbuf) := by
  have hc : doCurves dstr active (reset st) doc = ⟨0, 0, 0, "", []⟩ := by
    rw [doCurves_eq]
    unfold nodeLoop
    rw [nodeFold_none dstr active _ _ h]
    simp [reset]
  have h0 : fmt_d 0 = "0" := by decide
  constructor
  · rw [saveDocument_fst]
    simp (disch := decide) only [saveDocument.buffer, hc, doHeader, doTail, out, append,
      String.append_assoc, vsnprintf_short, String.reduceAppend, String.empty_append,
      String.append_empty, h0]
  · intro ho
    simp [saveDocument, ho]

/-- C2 at a document of a root and a group: no node passes the checks. -/
theorem saveDocument_no_shape_witness :
    (∀ n ∈ findElementsByTagName [] exGroupDoc.rroot none, qualify exGroupDoc n = none) ∧
    (saveDocument exDstr "0.45" "Thu Feb  1 12:00:00 2007\n" exGroupDoc exOpenFs exUsed
        exGroupDoc "out.pov").1.nrShapes = 0 ∧
    (saveDocument exDstr "0.45" "Thu Feb  1 12:00:00 2007\n" exGroupDoc exOpenFs exUsed
        exGroupDoc "out.pov").1.povShapes = [] := by
  have h : ∀ n ∈ findElementsByTagName [] exGroupDoc.rroot none, qualify exGroupDoc n = none := by
    intro n hn
    simp [findElementsByTagName, findElementsByTagName.children, exGroupDoc] at hn
    rcases hn with hn | hn <;> subst hn <;>
      simp [qualify, exGroupDoc, Node.attributeId, SP_IS_ITEM, SP_IS_SHAPE, SPObject.kind]
  have key := saveDocument_no_shape exDstr "0.45" "Thu Feb  1 12:00:00 2007\n" exGroupDoc
    exOpenFs exUsed exGroupDoc "out.pov" h
  exact ⟨h, by rw [key.1], by rw [key.1]⟩

/-! ## The counters -/

/-- C3 fails on the code: for the document whose only shape is a rectangle of
one move and four lines, four quadruple records are emitted, and the segment
counter ends at 5 and is printed as 5. `nrSegments` grows by `curveLength`, the
number of commands of the curve with the move among them, not by the number of
emitted segments. -/
theorem saveDocument_rect_nrSegments :
    (segmentCalls exTf 0 0 0 exRect.bpath).length = 4 ∧
    (saveDocument.buffer exDstr "0.45" "Thu Feb  1 12:00:00 2007\n" exRectDoc exUsed
        exRectDoc).nrSegments = 5 ∧
    ∃ pre post : String,
      (saveDocument.buffer exDstr "0.45" "Thu Feb  1 12:00:00 2007\n" exRectDoc exUsed
        exRectDoc).outbuf = pre ++ ("##    Segments : 5\n" ++ post) := by
  have h5 : fmt_d 5 = "5" := by decide
  refine ⟨by rw [exRect_calls]; rfl, ?_, ?_⟩
  · rw [buffer_eq, exRectDoc_exports]
    simp [SP_CURVE_LENGTH, exRect]
  · rw [buffer_eq, exRectDoc_exports]
    simp (disch := decide) only [List.map, List.sum_cons, List.sum_nil, SP_CURVE_LENGTH, exRect,
      List.length, Nat.cast_ofNat, add_zero, Nat.cast_add, Nat.cast_one, Nat.cast_zero, zero_add,
      Int.reduceAdd, h5, String.reduceAppend, vsnprintf_short]
    exact mid_prepend _ _ _ (mid_prepend _ _ _ (mid_prepend _ _ _ (mid_prepend _ _ _
      (mid_prepend _ _ _ (mid_here _ _)))))


/-- C4: after an export the node counter is 8 times the number of quadruple
records emitted over all exported shapes (the calls of `segment`, whose texts
are what the loop over the commands writes, see `curveLoop_st`), this is the
number the header prints behind `Nodes`, and for the document whose only shape
is a rectangle of four lines it is 32. -/
theorem saveDocument_nrNodes (dstr : ℚ → String) (VERSION created : String)
    (active : SPDocument) (st : PovOutput) (doc : SPDocument) :
    (saveDocument.buffer dstr VERSION created active st doc).nrNodes =
      8 * ((((findElementsByTagName [] active.rroot none).filterMap (qualify active)).map
        (fun e => ((segmentCalls e.2.2.1 0 0 0 e.2.2.2.bpath).length : Int))).sum) ∧
    (∃ pre post : String,
      (saveDocument.buffer dstr VERSION created active st doc).outbuf =
        pre ++ (vsnprintf 4096 ("##    Nodes    : " ++
          fmt_d (8 * ((((findElementsByTagName [] active.rroot none).filterMap
            (qualify active)).map
              (fun e => ((segmentCalls e.2.2.1 0 0 0 e.2.2.2.bpath).length : Int))).sum)) ++
          "\n") ++ post)) ∧
    (saveDocument.buffer dstr VERSION created exRectDoc st exRectDoc).nrNodes = 32 := by
  refine ⟨by rw [buffer_eq], ?_, ?_⟩
  · rw [buffer_eq]
    exact mid_prepend _ _ _ (mid_prepend _ _ _ (mid_prepend _ _ _ (mid_prepend _ _ _
      (mid_prepend _ _ _ (mid_prepend _ _ _ (mid_here _ _))))))
  · rw [buffer_eq, exRectDoc_exports]
    simp [exRect_calls]

/-- The two other counters after an export: `nrShapes` is the number of
exported nodes, `nrSegments` the number of all commands of their curves. -/
theorem saveDocument_counters (dstr : ℚ → String) (VERSION created : String)
    (active : SPDocument) (st : PovOutput) (doc : SPDocument) :
    (saveDocument.buffer dstr VERSION created active st doc).nrShapes =
      (((findElementsByTagName [] active.rroot none).filterMap (qualify active)).length : Int) ∧
    (saveDocument.buffer dstr VERSION created active st doc).nrSegments =
      (((findElementsByTagName [] active.rroot none).filterMap (qualify active)).map
        (fun e => ((e.2.2.2.bpath.length : Nat) : Int))).sum := by
  rw [buffer_eq]
  exact ⟨rfl, rfl⟩

/-! ## The bounds of a shape -/

/-- C5, as stated, fails: for a rectangle with the corners (2000000, 0),
(3000000, 0), (3000000, 1), (2000000, 1) and the identity as transform, the
smallest X of the corners is 2000000, and the loop leaves `cminx` at its
initial value 1000000, which is what the shape declares as its `MIN_X`. -/
theorem prism_bounds_far_rectangle :
    (prism exDstr ⟨0, 0, 0, "", []⟩ "far" (fun p => p)
        (closedPath4 ⟨2000000, 0⟩ ⟨3000000, 0⟩ ⟨3000000, 1⟩ ⟨2000000, 1⟩)).cminx = 1000000 ∧
    min (min (min (2000000 : ℚ) 3000000) 3000000) 2000000 = 2000000 ∧
    ∃ pre post : String,
      shapeText exDstr "far" (SPObject.mk SPKind.shape none none (fun p => p) none)
          (fun p => p) (closedPath4 ⟨2000000, 0⟩ ⟨3000000, 0⟩ ⟨3000000, 1⟩ ⟨2000000, 1⟩) =
        pre ++ ("#declare far_MIN_X    = 1000000;\n" ++ post) := by
  have hb := (closedPath4_bounds exDstr ⟨0, 0, 0, "", []⟩ "far" (fun p => p)
    ⟨2000000, 0⟩ ⟨3000000, 0⟩ ⟨3000000, 1⟩ ⟨2000000, 1⟩).1
  have hm : min bignum (min (min (min (2000000 : ℚ) 3000000) 3000000) 2000000) = 1000000 := by
    norm_num [bignum]
  simp only [hm] at hb
  refine ⟨hb, by norm_num, ?_⟩
  obtain ⟨pre, post, h⟩ := shapeText_bounds exDstr "far"
    (SPObject.mk SPKind.shape none none (fun p => p) none) (fun p => p)
    (closedPath4 ⟨2000000, 0⟩ ⟨3000000, 0⟩ ⟨3000000, 1⟩ ⟨2000000, 1⟩)
  refine ⟨pre, ?_⟩
  apply Exists.intro
  have hl : vsnprintf 4096 "#declare far_MIN_X    = 1000000;\n" =
      "#declare far_MIN_X    = 1000000;\n" := by decide
  rw [h, hb, exDstr_million]
  simp only [String.reduceAppend, hl]
  rfl

/-- C5 (amended): for a shape whose curve is a move and four lines through the
corners `p0`, `p1`, `p2`, `p3` and back to `p0`, and whose transformed corners
all have their coordinates between -1000000 and 1000000 (the values the bounds
start from), the bounds the loop ends with are the smallest and the largest X
and Y of the transformed corners, and these are the numbers the shape declares
as `MIN_X`, `MAX_X`, `MIN_Y` and `MAX_Y` (with their mean as `CENTER` and their
difference as `WIDTH` and `HEIGHT`). -/
theorem prism_bounds_closedPath4 (dstr : ℚ → String) (st : PovOutput) (id : String)
    (shape : SPObject) (tf : Point → Point) (p0 p1 p2 p3 : Point)
    (h : ∀ p ∈ [p0, p1, p2, p3], -bignum ≤ (tf p).x ∧ (tf p).x ≤ bignum ∧
          -bignum ≤ (tf p).y ∧ (tf p).y ≤ bignum) :
    let minX := min (min (min (tf p0).x (tf p1).x) (tf p2).x) (tf p3).x
    let maxX := max (max (max (tf p0).x (tf p1).x) (tf p2).x) (tf p3).x
    let minY := min (min (min (tf p0).y (tf p1).y) (tf p2).y) (tf p3).y
    let maxY := max (max (max (tf p0).y (tf p1).y) (tf p2).y) (tf p3).y
    (prism dstr st id tf (closedPath4 p0 p1 p2 p3)).cminx = minX ∧
    (prism dstr st id tf (closedPath4 p0 p1 p2 p3)).cmaxx = maxX ∧
    (prism dstr st id tf (closedPath4 p0 p1 p2 p3)).cminy = minY ∧
    (prism dstr st id tf (closedPath4 p0 p1 p2 p3)).cmaxy = maxY ∧
    ∃ pre post : String, shapeText dstr id shape tf (closedPath4 p0 p1 p2 p3) = pre ++
      (vsnprintf 4096 ("#declare " ++ id ++ "_MIN_X    = " ++ dstr minX ++ ";\n") ++
      (vsnprintf 4096 ("#declare " ++ id ++ "_CENTER_X = " ++ dstr ((maxX + minX) / 2) ++ ";\n") ++
      (vsnprintf 4096 ("#declare " ++ id ++ "_MAX_X    = " ++ dstr maxX ++ ";\n") ++
      (vsnprintf 4096 ("#declare " ++ id ++ "_WIDTH    = " ++ dstr (maxX - minX) ++ ";\n") ++
      (vsnprintf 4096 ("#declare " ++ id ++ "_MIN_Y    = " ++ dstr minY ++ ";\n") ++
      (vsnprintf 4096 ("#declare " ++ id ++ "_CENTER_Y = " ++ dstr ((maxY + minY) / 2) ++ ";\n") ++
      (vsnprintf 4096 ("#declare " ++ id ++ "_MAX_Y    = " ++ dstr maxY ++ ";\n") ++
      (vsnprintf 4096 ("#declare " ++ id ++ "_HEIGHT   = " ++ dstr (maxY - minY) ++ ";\n") ++
        post)))))))) := by
  intro minX maxX minY maxY
  obtain ⟨h0x, h0x', h0y, h0y'⟩ := h p0 (by simp)
  have e1 : min bignum minX = minX := min_eq_right
    (le_trans (le_trans (min_le_left _ _) (le_trans (min_le_left _ _) (min_le_left _ _))) h0x')
  have e2 : max (-bignum) maxX = maxX := max_eq_right
    (le_trans h0x (le_trans (le_max_left _ _) (le_trans (le_max_left _ _) (le_max_left _ _))))
  have e3 : min bignum minY = minY := min_eq_right
    (le_trans (le_trans (min_le_left _ _) (le_trans (min_le_left _ _) (min_le_left _ _))) h0y')
  have e4 : max (-bignum) maxY = maxY := max_eq_right
    (le_trans h0y (le_trans (le_max_left _ _) (le_trans (le_max_left _ _) (le_max_left _ _))))
  have hb := closedPath4_bounds dstr st id tf p0 p1 p2 p3
  have hz := closedPath4_bounds dstr ⟨0, 0, 0, "", []⟩ id tf p0 p1 p2 p3
  rw [e1, e2, e3, e4] at hb hz
  refine ⟨hb.1, hb.2.1, hb.2.2.1, hb.2.2.2, ?_⟩
  obtain ⟨pre, post, ht⟩ := shapeText_bounds dstr id shape tf (closedPath4 p0 p1 p2 p3)
  rw [hz.1, hz.2.1, hz.2.2.1, hz.2.2.2] at ht
  exact ⟨pre, post, ht⟩

/-- C5 (amended) at the rectangle with the corners (1, 2), (5, 2), (5, 4) and
(1, 4) under the transform that scales by 2 and 3 and shifts by 10: the bounds
are 12 and 20 in X, 6 and 12 in Y. -/
theorem prism_bounds_closedPath4_witness :
    (∀ p ∈ [(⟨1, 2⟩ : Point), ⟨5, 2⟩, ⟨5, 4⟩, ⟨1, 4⟩], -bignum ≤ (exTf p).x ∧
        (exTf p).x ≤ bignum ∧ -bignum ≤ (exTf p).y ∧ (exTf p).y ≤ bignum) ∧
    (prism exDstr ⟨0, 0, 0, "", []⟩ "rect1" exTf (closedPath4 ⟨1, 2⟩ ⟨5, 2⟩ ⟨5, 4⟩ ⟨1, 4⟩)).cminx = 12 ∧
    (prism exDstr ⟨0, 0, 0, "", []⟩ "rect1" exTf (closedPath4 ⟨1, 2⟩ ⟨5, 2⟩ ⟨5, 4⟩ ⟨1, 4⟩)).cmaxx = 20 ∧
    (prism exDstr ⟨0, 0, 0, "", []⟩ "rect1" exTf (closedPath4 ⟨1, 2⟩ ⟨5, 2⟩ ⟨5, 4⟩ ⟨1, 4⟩)).cminy = 6 ∧
    (prism exDstr ⟨0, 0, 0, "", []⟩ "rect1" exTf (closedPath4 ⟨1, 2⟩ ⟨5, 2⟩ ⟨5, 4⟩ ⟨1, 4⟩)).cmaxy = 12 := by
  have h : ∀ p ∈ [(⟨1, 2⟩ : Point), ⟨5, 2⟩, ⟨5, 4⟩, ⟨1, 4⟩], -bignum ≤ (exTf p).x ∧
      (exTf p).x ≤ bignum ∧ -bignum ≤ (exTf p).y ∧ (exTf p).y ≤ bignum := by
    intro p hp
    simp only [List.mem_cons, List.mem_singleton, List.not_mem_nil, or_false] at hp
    rcases hp with hp | hp | hp | hp <;> subst hp <;> norm_num [exTf, bignum]
  have key := prism_bounds_closedPath4 exDstr ⟨0, 0, 0, "", []⟩ "rect1" exRectShape exTf
    ⟨1, 2⟩ ⟨5, 2⟩ ⟨5, 4⟩ ⟨1, 4⟩ h
  simp only [] at key
  refine ⟨h, ?_, ?_, ?_, ?_⟩
  · rw [key.1]; norm_num [exTf]
  · rw [key.2.1]; norm_num [exTf]
  · rw [key.2.2.1]; norm_num [exTf]
  · rw [key.2.2.2.1]; norm_num [exTf]

/-! ## The colour of a shape -/

/-- C6: an exported shape gets the declaration `<id>_COLOR` exactly when its
fill is a flat colour, and the whole text written for the shape says so. With
a style whose fill type is the colour, the entry of the shape list carries the
`rgbf` string, and the text is the prism, the eight declarations of the
bounds, the `COLOR` declaration and the closing comment; without style, or
with any other fill type, the entry carries the empty string, and the text is
the prism, the eight declarations of the bounds and the closing comment, with
nothing in between. -/
theorem shape_color_declared (dstr : ℚ → String) (d : DocVars) (id : String) (shape : SPObject)
    (tf : Point → Point) (curve : SPCurve) :
    (doShape dstr d id shape tf curve).st.povShapes =
      d.st.povShapes ++ [⟨id, shapeColor dstr shape⟩] ∧
    (doShape dstr d id shape tf curve).st.outbuf =
      d.st.outbuf ++ shapeText dstr id shape tf curve ∧
    (∀ style : SPStyle, shape.style = some style → style.fill_type = SP_PAINT_TYPE_COLOR →
      shapeColor dstr shape =
        "rgbf <" ++ dstr style.rgb0 ++ ", " ++ dstr style.rgb1 ++ ", " ++ dstr style.rgb2 ++
          ", " ++ dstr (1 - dopacity style shape) ++ ">" ∧
      (doShape dstr d id shape tf curve).st.outbuf = d.st.outbuf ++
        ("/*###################################################\n" ++
        (vsnprintf 4096 ("### PRISM:  " ++ id ++ "\n") ++
        ("###################################################*/\n" ++
        (vsnprintf 4096 ("#declare " ++ id ++ " = prism \x7b\n") ++
        ("    linear_sweep\n    bezier_spline\n    1.0, //top\n    0.0, //bottom\n" ++
        (vsnprintf 4096 ("    " ++ fmt_d (countSegments 0 curve.bpath * 4) ++ " //nr points\n") ++
        (concat ((segmentCalls tf 0 0 0 curve.bpath).map
          (Quadruple.text dstr (countSegments 0 curve.bpath))) ++
        ("\x7d\n" ++
        (vsnprintf 4096 ("#declare " ++ id ++ "_MIN_X    = " ++
          dstr (prism dstr ⟨0, 0, 0, "", []⟩ id tf curve).cminx ++ ";\n") ++
        (vsnprintf 4096 ("#declare " ++ id ++ "_CENTER_X = " ++
          dstr (((prism dstr ⟨0, 0, 0, "", []⟩ id tf curve).cmaxx +
            (prism dstr ⟨0, 0, 0, "", []⟩ id tf curve).cminx) / 2) ++ ";\n") ++
        (vsnprintf 4096 ("#declare " ++ id ++ "_MAX_X    = " ++
          dstr (prism dstr ⟨0, 0, 0, "", []⟩ id tf curve).cmaxx ++ ";\n") ++
        (vsnprintf 4096 ("#declare " ++ id ++ "_WIDTH    = " ++
          dstr ((prism dstr ⟨0, 0, 0, "", []⟩ id tf curve).cmaxx -
            (prism dstr ⟨0, 0, 0, "", []⟩ id tf curve).cminx) ++ ";\n") ++
        (vsnprintf 4096 ("#declare " ++ id ++ "_MIN_Y    = " ++
          dstr (prism dstr ⟨0, 0, 0, "", []⟩ id tf curve).cminy ++ ";\n") ++
        (vsnprintf 4096 ("#declare " ++ id ++ "_CENTER_Y = " ++
          dstr (((prism dstr ⟨0, 0, 0, "", []⟩ id tf curve).cmaxy +
            (prism dstr ⟨0, 0, 0, "", []⟩ id tf curve).cminy) / 2) ++ ";\n") ++
        (vsnprintf 4096 ("#declare " ++ id ++ "_MAX_Y    = " ++
          dstr (prism dstr ⟨0, 0, 0, "", []⟩ id tf curve).cmaxy ++ ";\n") ++
        (vsnprintf 4096 ("#declare " ++ id ++ "_HEIGHT   = " ++
          dstr ((prism dstr ⟨0, 0, 0, "", []⟩ id tf curve).cmaxy -
            (prism dstr ⟨0, 0, 0, "", []⟩ id tf curve).cminy) ++ ";\n") ++
        (vsnprintf 4096 ("#declare " ++ id ++ "_COLOR    = " ++ shapeColor dstr shape ++ ";\n") ++
        ("/*###################################################\n" ++
        (vsnprintf 4096 ("### end " ++ id ++ "\n") ++
        "###################################################*/\n\n\n\n")))))))))))))))))))) ∧
    ((shape.style = none ∨
        ∃ style : SPStyle, shape.style = some style ∧ style.fill_type ≠ SP_PAINT_TYPE_COLOR) →
      shapeColor dstr shape = "" ∧
      (doShape dstr d id shape tf curve).st.outbuf = d.st.outbuf ++
        ("/*###################################################\n" ++
        (vsnprintf 4096 ("### PRISM:  " ++ id ++ "\n") ++
        ("###################################################*/\n" ++
        (vsnprintf 4096 ("#declare " ++ id ++ " = prism \x7b\n") ++
        ("    linear_sweep\n    bezier_spline\n    1.0, //top\n    0.0, //bottom\n" ++
        (vsnprintf 4096 ("    " ++ fmt_d (countSegments 0 curve.bpath * 4) ++ " //nr points\n") ++
        (concat ((segmentCalls tf 0 0 0 curve.bpath).map
          (Quadruple.text dstr (countSegments 0 curve.bpath))) ++
        ("\x7d\n" ++
        (vsnprintf 4096 ("#declare " ++ id ++ "_MIN_X    = " ++
          dstr (prism dstr ⟨0, 0, 0, "", []⟩ id tf curve).cminx ++ ";\n") ++
        (vsnprintf 4096 ("#declare " ++ id ++ "_CENTER_X = " ++
          dstr (((prism dstr ⟨0, 0, 0, "", []⟩ id tf curve).cmaxx +
            (prism dstr ⟨0, 0, 0, "", []⟩ id tf curve).cminx) / 2) ++ ";\n") ++
        (vsnprintf 4096 ("#declare " ++ id ++ "_MAX_X    = " ++
          dstr (prism dstr ⟨0, 0, 0, "", []⟩ id tf curve).cmaxx ++ ";\n") ++
        (vsnprintf 4096 ("#declare " ++ id ++ "_WIDTH    = " ++
          dstr ((prism dstr ⟨0, 0, 0, "", []⟩ id tf curve).cmaxx -
            (prism dstr ⟨0, 0, 0, "", []⟩ id tf curve).cminx) ++ ";\n") ++
        (vsnprintf 4096 ("#declare " ++ id ++ "_MIN_Y    = " ++
          dstr (prism dstr ⟨0, 0, 0, "", []⟩ id tf curve).cminy ++ ";\n") ++
        (vsnprintf 4096 ("#declare " ++ id ++ "_CENTER_Y = " ++
          dstr (((prism dstr ⟨0, 0, 0, "", []⟩ id tf curve).cmaxy +
            (prism dstr ⟨0, 0, 0, "", []⟩ id tf curve).cminy) / 2) ++ ";\n") ++
        (vsnprintf 4096 ("#declare " ++ id ++ "_MAX_Y    = " ++
          dstr (prism dstr ⟨0, 0, 0, "", []⟩ id tf curve).cmaxy ++ ";\n") ++
        (vsnprintf 4096 ("#declare " ++ id ++ "_HEIGHT   = " ++
          dstr ((prism dstr ⟨0, 0, 0, "", []⟩ id tf curve).cmaxy -
            (prism dstr ⟨0, 0, 0, "", []⟩ id tf curve).cminy) ++ ";\n") ++
        ("/*###################################################\n" ++
        (vsnprintf 4096 ("### end " ++ id ++ "\n") ++
        "###################################################*/\n\n\n\n"))))))))))))))))))) := by
  refine ⟨by rw [doShape_st], by rw [doShape_st], ?_, ?_⟩
  · intro style hs hf
    refine ⟨shapeColor_flat dstr shape style hs hf, ?_⟩
    have hl := shapeColor_flat_length dstr shape style hs hf
    rw [doShape_st, shapeText_eq]
    simp only [hl, if_true]
  · intro h
    have hc := shapeColor_other dstr shape h
    refine ⟨hc, ?_⟩
    have h0 : ¬ ((shapeColor dstr shape).length > 0) := by rw [hc]; decide
    rw [doShape_st, shapeText_eq]
    simp only [h0, if_false, String.empty_append]

/-- C6 at a shape filled in red and at a shape filled with a gradient: the
first has a colour string that starts with `rgbf <`, the second the empty
one. -/
theorem shape_color_declared_witness :
    shapeColor exDstr exRectShape =
      "rgbf <" ++ exDstr 1 ++ ", " ++ exDstr 0 ++ ", " ++ exDstr 0 ++ ", " ++
        exDstr (1 - dopacity (exRed (1 / 2) 1) exRectShape) ++ ">" ∧
    shapeColor exDstr exGradient = "" := by
  constructor
  · exact ((shape_color_declared exDstr exStart "rect1" exRectShape exTf exRect).2.2.1
      (exRed (1 / 2) 1) rfl rfl).1
  · exact ((shape_color_declared exDstr exStart "path1" exGradient (fun p => p) exTriangle).2.2.2
      (Or.inr ⟨⟨SP_PAINT_TYPE_PAINTSERVER, 0, 0, 0, 1, 1⟩, rfl, by decide⟩)).1

/-- C7, as stated, fails: a shape without ancestors, with fill opacity 1 and
an own opacity of one half, has by the claim the effective opacity 1 (its fill
opacity times an empty product) and the fourth component 0; `doCurves` gives it
the fourth component one half, since `effective_opacity` starts its product at
the shape itself. -/
theorem dopacity_own_opacity :
    exFaint.style = some (exRed 1 (1 / 2)) ∧ exFaint.ancestors = [] ∧
    (exRed 1 (1 / 2)).fill_opacity * (([] : List SPStyle).map SPStyle.opacity).prod = 1 ∧
    1 - dopacity (exRed 1 (1 / 2)) exFaint = 1 / 2 ∧
    shapeColor exDstr exFaint =
      "rgbf <" ++ exDstr 1 ++ ", " ++ exDstr 0 ++ ", " ++ exDstr 0 ++ ", " ++ exDstr (1 / 2) ++ ">" := by
  have hd : dopacity (exRed 1 (1 / 2)) exFaint = 1 / 2 := by
    simp [dopacity, effective_opacity, effective_opacity.loop, exFaint, exRed]
  refine ⟨rfl, by simp [exFaint, SPObject.ancestors], by simp [exRed], by rw [hd]; norm_num, ?_⟩
  rw [shapeColor_flat exDstr exFaint (exRed 1 (1 / 2)) rfl rfl, hd]
  norm_num [exRed]

/-- C7 (amended): for a shape with a flat fill colour all of whose ancestors
carry a style, the fourth component of its `rgbf` colour is 1 minus the
product of the fill opacity of the shape, the opacity of the shape itself and
the opacity of every ancestor. -/
theorem shape_color_opacity (dstr : ℚ → String) (shape : SPObject) (style : SPStyle)
    (styles : List SPStyle) (hs : shape.style = some style)
    (hf : style.fill_type = SP_PAINT_TYPE_COLOR)
    (ha : shape.ancestors.map SPObject.style = styles.map some) :
    dopacity style shape =
      style.fill_opacity * (style.opacity * (styles.map SPStyle.opacity).prod) ∧
    shapeColor dstr shape =
      "rgbf <" ++ dstr style.rgb0 ++ ", " ++ dstr style.rgb1 ++ ", " ++ dstr style.rgb2 ++ ", " ++
        dstr (1 - style.fill_opacity * (style.opacity * (styles.map SPStyle.opacity).prod)) ++
        ">" := by
  have hd : dopacity style shape =
      style.fill_opacity * (style.opacity * (styles.map SPStyle.opacity).prod) := by
    unfold dopacity effective_opacity
    rw [effective_opacity_loop_eq styles shape 1 style hs ha]
    ring
  refine ⟨hd, ?_⟩
  rw [shapeColor_flat dstr shape style hs hf, hd]

/-- C7 (amended) at a shape of fill opacity one half and own opacity 1 under
three ancestors of opacity one half each: the component is 15/16, which is
1 - 0.5^4 = 0.9375. -/
theorem shape_color_opacity_witness :
    exNested.style = some (exRed (1 / 2) 1) ∧
    (exRed (1 / 2) 1).fill_type = SP_PAINT_TYPE_COLOR ∧
    exNested.ancestors.map SPObject.style =
      [(⟨SP_PAINT_TYPE_NONE, 0, 0, 0, 1, 1 / 2⟩ : SPStyle), ⟨SP_PAINT_TYPE_NONE, 0, 0, 0, 1, 1 / 2⟩,
        ⟨SP_PAINT_TYPE_NONE, 0, 0, 0, 1, 1 / 2⟩].map some ∧
    1 - dopacity (exRed (1 / 2) 1) exNested = 15 / 16 ∧
    (15 / 16 : ℚ) = 1 - (1 / 2) ^ 4 := by
  have ha : exNested.ancestors.map SPObject.style =
      [(⟨SP_PAINT_TYPE_NONE, 0, 0, 0, 1, 1 / 2⟩ : SPStyle), ⟨SP_PAINT_TYPE_NONE, 0, 0, 0, 1, 1 / 2⟩,
        ⟨SP_PAINT_TYPE_NONE, 0, 0, 0, 1, 1 / 2⟩].map some := by
    simp [exNested, exGroup, SPObject.ancestors, SPObject.style]
  have key := shape_color_opacity exDstr exNested (exRed (1 / 2) 1) _ rfl rfl ha
  refine ⟨rfl, rfl, ha, ?_, by norm_num⟩
  rw [key.1]
  norm_num [exRed]

/-! ## The union of all shapes -/

/-- C8: `doCurves`, run as `saveDocument` runs it (on the exporter `reset` has
cleared), leaves in the shape list one entry per exported node, in the order
of the export. Without exported shape it writes nothing, so there is no union
section; with at least one it writes, behind the text of the shapes, the
opening of the union `AllShapes`, then one member per entry of the shape list,
in order, each naming the shape by its id inside a texture whose pigment is
the colour of the shape when it has one and `rgb <0,0,0>` otherwise, then the
closing brace of the union. -/
theorem union_members (dstr : ℚ → String) (active : SPDocument) (doc : SPDocument) :
    let exported := (findElementsByTagName [] active.rroot none).filterMap (qualify active)
    let shapes : List PovShapeInfo := exported.map (fun e => ⟨e.1, shapeColor dstr e.2.1⟩)
    let shapesText := concat (exported.map (fun e => shapeText dstr e.1 e.2.1 e.2.2.1 e.2.2.2))
    (doCurves dstr active ⟨0, 0, 0, "", []⟩ doc).povShapes = shapes ∧
    (shapes = [] → (doCurves dstr active ⟨0, 0, 0, "", []⟩ doc).outbuf = "") ∧
    (shapes ≠ [] → ∃ rest : String,
      (doCurves dstr active ⟨0, 0, 0, "", []⟩ doc).outbuf = shapesText ++
        ("/*###################################################\n### UNION OF ALL SHAPES IN DOCUMENT\n###################################################*/\n\n\n/**\n * Allow the user to redefine the finish\x7b\x7d\n * by declaring it before #including this file\n */\n#ifndef (AllShapes_Finish)\n#declare AllShapes_Finish = finish \x7b\n    phong 0.5\n    reflection 0.3\n    specular 0.5\n\x7d\n#end\n\n\n#declare AllShapes = union \x7b\n" ++
        (concat (shapes.map (fun shape =>
          vsnprintf 4096 ("    object \x7b " ++ shape.id ++ "\n") ++
          ("        texture \x7b \n" ++
          ((if shape.color.length > 0 then
              vsnprintf 4096 ("            pigment \x7b " ++ shape.color ++ " \x7d\n")
            else "            pigment \x7b rgb <0,0,0> \x7d\n") ++
          "            finish \x7b AllShapes_Finish \x7d\n            \x7d \n        \x7d \n")))) ++
        ("\x7d\n\n\n\n" ++ rest)))) := by
  intro exported shapes shapesText
  have hloop := nodeFold_st dstr active (findElementsByTagName [] active.rroot none)
    { st := ⟨0, 0, 0, "", []⟩, minx := bignum, maxx := -bignum, miny := bignum, maxy := -bignum }
  simp only [List.nil_append, String.empty_append, zero_add] at hloop
  have hpov : (nodeLoop dstr active ⟨0, 0, 0, "", []⟩
      (findElementsByTagName [] active.rroot none)).st.povShapes = shapes := by
    unfold nodeLoop; rw [hloop]
  have hout : (nodeLoop dstr active ⟨0, 0, 0, "", []⟩
      (findElementsByTagName [] active.rroot none)).st.outbuf = shapesText := by
    unfold nodeLoop; rw [hloop]
  have hclose : vsnprintf 4096 "\x7d\n\n\n\n" = "\x7d\n\n\n\n" := by decide
  obtain ⟨rest, hu⟩ := doUnion_frame dstr
    (nodeLoop dstr active ⟨0, 0, 0, "", []⟩ (findElementsByTagName [] active.rroot none))
  refine ⟨?_, ?_, ?_⟩
  · rw [doCurves_eq]
    split_ifs with h
    · rw [hu]; exact hpov
    · exact hpov
  · intro hnil
    rw [doCurves_eq, hpov, hnil]
    simp only [List.length_nil, gt_iff_lt, lt_self_iff_false, if_false]
    rw [hout]
    have he : exported = [] := List.map_eq_nil_iff.mp hnil
    simp [shapesText, he, concat]
  · intro hne
    refine ⟨rest, ?_⟩
    have hpos : (nodeLoop dstr active ⟨0, 0, 0, "", []⟩
        (findElementsByTagName [] active.rroot none)).st.povShapes.length > 0 := by
      rw [hpov]; exact List.length_pos.mpr hne
    rw [doCurves_eq]
    simp only [hpos, if_true]
    rw [hu]
    simp only [hout, hpov, unionOpen_text, hclose, unionMember_text]

/-- C8 at the document whose only shape is the rectangle: the shape list has
the one entry `rect1`. -/
theorem union_members_witness :
    (doCurves exDstr exRectDoc ⟨0, 0, 0, "", []⟩ exRectDoc).povShapes =
      [⟨"rect1", shapeColor exDstr exRectShape⟩] := by
  have key := (union_members exDstr exRectDoc exRectDoc).1
  rw [exRectDoc_exports] at key
  exact key

/-! ## The export as a whole -/

/-- C9: `saveDocument` starts with `reset`, so what it returns and what it
writes do not depend on the state it finds the exporter in (counters, buffered
text, shape list): two exports of the same document with the same timestamp
agree in the exporter they leave and in the file system. The timestamp enters
the text in one place only: there are a text in front and a text behind, the
same for every timestamp and every prior state, between which the line
`### Created:` stands. -/
theorem saveDocument_fresh (dstr : ℚ → String) (VERSION : String) (active : SPDocument)
    (fs : FileSystem) (doc : SPDocument) (uri : String) :
    (∀ (created : String) (st1 st2 : PovOutput),
      saveDocument dstr VERSION created active fs st1 doc uri =
        saveDocument dstr VERSION created active fs st2 doc uri) ∧
    ∃ pre post : String, ∀ (created : String) (st : PovOutput),
      (saveDocument dstr VERSION created active fs st doc uri).1.outbuf =
        pre ++ (vsnprintf 4096 ("### Created: " ++ created) ++ post) := by
  constructor
  · intro created st1 st2
    unfold saveDocument
    rw [buffer_reset dstr VERSION created active st1 st2 doc]
  · apply Exists.intro
    apply Exists.intro
    intro created st
    rw [saveDocument_fst, buffer_eq]

/-- C10, as stated, fails: `save` and `saveDocument` return nothing, and the
exporter they leave when the file cannot be opened is the one they leave when
it can, so nothing that comes back tells the caller that the export failed;
only the file differs, which keeps its earlier text in one case and receives
the buffer in the other. -/
theorem save_failure_silent :
    exClosedFs.canOpen "out.pov" = false ∧ exOpenFs.canOpen "out.pov" = true ∧
    (save exDstr "0.45" "Thu Feb  1 12:00:00 2007\n" exRectDoc exClosedFs exUsed exRectDoc
        "out.pov").1 =
      (save exDstr "0.45" "Thu Feb  1 12:00:00 2007\n" exRectDoc exOpenFs exUsed exRectDoc
        "out.pov").1 ∧
    (save exDstr "0.45" "Thu Feb  1 12:00:00 2007\n" exRectDoc exClosedFs exUsed exRectDoc
        "out.pov").2.content "out.pov" = some "earlier text" ∧
    (save exDstr "0.45" "Thu Feb  1 12:00:00 2007\n" exRectDoc exOpenFs exUsed exRectDoc
        "out.pov").2.content "out.pov" =
      some (saveDocument.buffer exDstr "0.45" "Thu Feb  1 12:00:00 2007\n" exRectDoc exUsed
        exRectDoc).outbuf := by
  refine ⟨rfl, rfl, ?_, ?_, ?_⟩
  · unfold save
    rw [saveDocument_fst, saveDocument_fst]
  · simp [save, saveDocument, exClosedFs]
  · simp [save, saveDocument, exOpenFs]

/-- C10 (amended): when the destination cannot be opened for writing,
`saveDocument` leaves the file system as it was (nothing is written, no file
is created or cut short) and returns as after a successful export: the
exporter it leaves is the same whether or not the file could be opened, and
`save` hands on just what `saveDocument` does. -/
theorem saveDocument_open_fails (dstr : ℚ → String) (VERSION created : String)
    (active : SPDocument) (fs : FileSystem) (st : PovOutput) (doc : SPDocument) (uri : String)
    (h : fs.canOpen uri = false) :
    (saveDocument dstr VERSION created active fs st doc uri).2 = fs ∧
    (∀ fs2 : FileSystem,
      (saveDocument dstr VERSION created active fs st doc uri).1 =
        (saveDocument dstr VERSION created active fs2 st doc uri).1) ∧
    save dstr VERSION created active fs st doc uri =
      saveDocument dstr VERSION created active fs st doc uri := by
  refine ⟨by simp [saveDocument, h], ?_, rfl⟩
  intro fs2
  rw [saveDocument_fst, saveDocument_fst]

/-- C10 (amended) at a file system in which no file can be opened. -/
theorem saveDocument_open_fails_witness :
    exClosedFs.canOpen "out.pov" = false ∧
    (saveDocument exDstr "0.45" "Thu Feb  1 12:00:00 2007\n" exRectDoc exClosedFs exUsed
        exRectDoc "out.pov").2 = exClosedFs :=
  ⟨rfl, (saveDocument_open_fails exDstr "0.45" "Thu Feb  1 12:00:00 2007\n" exRectDoc exClosedFs
    exUsed exRectDoc "out.pov" rfl).1⟩

/-! ## The shape list and the traversal -/

/-- C11, as stated, fails: in a document whose two shapes hang on nodes with
the same `id`, both nodes are exported, and the shape list holds the identifier
`twin` twice. -/
theorem povShapes_twin_ids :
    (saveDocument.buffer exDstr "0.45" "Thu Feb  1 12:00:00 2007\n" exTwinDoc exUsed
        exTwinDoc).povShapes.map PovShapeInfo.id = ["twin", "twin"] ∧
    ¬ ((saveDocument.buffer exDstr "0.45" "Thu Feb  1 12:00:00 2007\n" exTwinDoc exUsed
        exTwinDoc).povShapes.map PovShapeInfo.id).Nodup := by
  have h : (saveDocument.buffer exDstr "0.45" "Thu Feb  1 12:00:00 2007\n" exTwinDoc exUsed
      exTwinDoc).povShapes.map PovShapeInfo.id = ["twin", "twin"] := by
    rw [buffer_eq, exTwinDoc_exports]
    rfl
  refine ⟨h, ?_⟩
  rw [h]
  decide

/-- C11 (amended): after every export the identifiers of the shape list are,
entry by entry, the `id` attributes of the exported nodes in the order of the
traversal; they are pairwise distinct exactly when the `id` attributes of the
exported nodes are, which the exporter neither checks nor enforces. -/
theorem povShapes_ids (dstr : ℚ → String) (VERSION created : String) (active : SPDocument)
    (st : PovOutput) (doc : SPDocument) :
    (saveDocument.buffer dstr VERSION created active st doc).povShapes.map
        (fun shape => some shape.id) =
      ((findElementsByTagName [] active.rroot none).filter
        (fun n => (qualify active n).isSome)).map Node.attributeId ∧
    (((saveDocument.buffer dstr VERSION created active st doc).povShapes.map
        PovShapeInfo.id).Nodup ↔
      (((findElementsByTagName [] active.rroot none).filter
        (fun n => (qualify active n).isSome)).map Node.attributeId).Nodup) := by
  have h1 : (saveDocument.buffer dstr VERSION created active st doc).povShapes.map
        (fun shape => some shape.id) =
      ((findElementsByTagName [] active.rroot none).filter
        (fun n => (qualify active n).isSome)).map Node.attributeId := by
    rw [buffer_eq, ← exported_ids]
    simp [List.map_map, Function.comp_def]
  refine ⟨h1, ?_⟩
  rw [← h1]
  have h2 : (saveDocument.buffer dstr VERSION created active st doc).povShapes.map
      (fun shape => some shape.id) =
      ((saveDocument.buffer dstr VERSION created active st doc).povShapes.map
        PovShapeInfo.id).map some := by
    simp [List.map_map, Function.comp_def]
  rw [h2]
  exact (List.nodup_map_iff (Option.some_injective String)).symm

/-- C11 (amended) at the document whose only shape hangs on the node `rect1`:
the shape list holds that identifier. -/
theorem povShapes_ids_witness :
    (saveDocument.buffer exDstr "0.45" "Thu Feb  1 12:00:00 2007\n" exRectDoc exUsed
        exRectDoc).povShapes.map (fun shape => some shape.id) = [some "rect1"] := by
  rw [(povShapes_ids exDstr "0.45" "Thu Feb  1 12:00:00 2007\n" exRectDoc exUsed exRectDoc).1,
    ← exported_ids, exRectDoc_exports]
  rfl

/-- C12: `findElementsByTagName` is a total function on trees (it recurses on
the structure of the tree, so it returns for every tree). It leaves the
entries of the result vector in front, unchanged, and appends the nodes of the
subtree that pass the name filter, in depth-first pre-order: all nodes for a
null filter, otherwise exactly those whose tag name equals the filter. -/
theorem findElementsByTagName_preorder (results : List Node) (node : Node)
    (name : Option String) :
    findElementsByTagName results node name =
      results ++ (preorder node).filter (passesFilter name) ∧
    findElementsByTagName results node none = results ++ preorder node := by
  refine ⟨find_eq_preorder node name results, ?_⟩
  rw [find_eq_preorder node none results]
  simp [passesFilter]

/-- C12 at a tree of five nodes: with a null filter all five are collected in
pre-order; with the filter `svg:path` the two paths are, behind the entry the
vector already held. -/
theorem findElementsByTagName_preorder_witness :
    (findElementsByTagName [] exTree none).map Node.attributeId =
      [none, some "g1", some "p1", some "p2", some "r1"] ∧
    (findElementsByTagName [Node.mk "svg:defs" none []] exTree (some "svg:path")).map
        Node.attributeId = [none, some "p1", some "p2"] := by
  constructor
  · rw [(findElementsByTagName_preorder [] exTree none).2]
    simp [exTree, preorder, preorder.children, Node.attributeId]
  · rw [(findElementsByTagName_preorder [Node.mk "svg:defs" none []] exTree (some "svg:path")).1]
    simp [exTree, preorder, preorder.children, Node.attributeId, passesFilter, Node.name,
      List.filter]

/-! ## The records of a prism -/

/-- C13, as stated, fails: for a curve of a move to (1, 2) and a line to
(5, 4) the walk as stated, in which the move leaves the current point at the
origin, gives the record that starts at (0, 0); the prism `doCurves` writes
holds the record that starts at T(1, 2) = (12, 6). -/
theorem prism_stroke_start :
    walkAsStated exTf 0 ⟨0, 0⟩ exStroke.bpath = [⟨0, 0, 0, 0, 0, 20, 12, 20, 12⟩] ∧
    (prism exDstr ⟨0, 0, 0, "", []⟩ "stroke" exTf exStroke).st.outbuf =
      "/*###################################################\n### PRISM:  stroke\n###################################################*/\n#declare stroke = prism \x7b\n    linear_sweep\n    bezier_spline\n    1.0, //top\n    0.0, //bottom\n    4 //nr points\n    /*   0*/ <12, 6>, <12, 6>, <20, 12>, <20, 12>\n" := by
  constructor
  · simp [walkAsStated, exStroke, exTf, NArtBpath.c]
    norm_num
  · have h12 : exDstr 12 = "12" := by
      have := exDstr_int 12
      simp only [Int.cast_ofNat] at this
      rw [this]; decide
    have h6 : exDstr 6 = "6" := by
      have := exDstr_int 6
      simp only [Int.cast_ofNat] at this
      rw [this]; decide
    have h20 : exDstr 20 = "20" := by
      have := exDstr_int 20
      simp only [Int.cast_ofNat] at this
      rw [this]; decide
    have hc : countSegments 0 exStroke.bpath = 1 := by
      simp [countSegments, exStroke]
    have h4 : fmt_d (1 * 4) = "4" := by decide
    have hn : fmt_4d 0 = "   0" := by decide
    rw [prism_st, exStroke_calls, hc]
    simp (disch := decide) only [List.map, concat, List.foldr, Quadruple.text, segment, vec2,
      append, h12, h6, h20, h4, hn, String.append_assoc, String.empty_append,
      String.append_empty, String.reduceAppend, vsnprintf_short, if_false,
      show ¬ ((0 : Int) + 1 < 1) from by decide]

/-- C13 (amended): the records in the prism of a shape are those of the walk
in which the current point starts at the origin and is, behind every command
(a move and an end among them), T of the third point of the command: a cubic
curve gives (current, T(handle 1), T(handle 2), T(end)), a line (current,
current, T(end), T(end)), a move and an end give nothing; the records are
numbered 0, 1, 2, ... in the order they are written. -/
theorem prism_quadruples (dstr : ℚ → String) (st : PovOutput) (id : String)
    (tf : Point → Point) (curve : SPCurve) :
    (prism dstr st id tf curve).st.outbuf = st.outbuf ++
      ("/*###################################################\n" ++
      (vsnprintf 4096 ("### PRISM:  " ++ id ++ "\n") ++
      ("###################################################*/\n" ++
      (vsnprintf 4096 ("#declare " ++ id ++ " = prism \x7b\n") ++
      ("    linear_sweep\n    bezier_spline\n    1.0, //top\n    0.0, //bottom\n" ++
      (vsnprintf 4096 ("    " ++ fmt_d (countSegments 0 curve.bpath * 4) ++ " //nr points\n") ++
      concat ((walkMoving tf 0 ⟨0, 0⟩ curve.bpath).map
        (Quadruple.text dstr (countSegments 0 curve.bpath))))))))) ∧
    (walkMoving tf 0 ⟨0, 0⟩ curve.bpath).map Quadruple.segNr =
      (List.range (walkMoving tf 0 ⟨0, 0⟩ curve.bpath).length).map (fun (i : Nat) => (i : Int)) := by
  constructor
  · rw [prism_st, segmentCalls_eq_walkMoving]
  · have h := segmentCalls_segNr tf curve.bpath 0 0 0
    rw [segmentCalls_eq_walkMoving] at h
    simpa using h

/-- C13 (amended) at the curve of a move to (1, 2) and a line to (5, 4): the
walk gives the one record from (12, 6) to (20, 12), with the number 0. -/
theorem prism_quadruples_witness :
    walkMoving exTf 0 ⟨0, 0⟩ exStroke.bpath = [⟨0, 12, 6, 12, 6, 20, 12, 20, 12⟩] ∧
    (walkMoving exTf 0 ⟨0, 0⟩ exStroke.bpath).map Quadruple.segNr = [0] := by
  have hw : walkMoving exTf 0 ⟨0, 0⟩ exStroke.bpath = [⟨0, 12, 6, 12, 6, 20, 12, 20, 12⟩] := by
    rw [← segmentCalls_eq_walkMoving, exStroke_calls]
  refine ⟨hw, ?_⟩
  rw [(prism_quadruples exDstr ⟨0, 0, 0, "", []⟩ "stroke" exTf exStroke).2, hw]
  rfl

/-- C14, as stated, fails: for the rectangle under the transform that scales
by 2 and 3 and shifts by 10, the untransformed running points at the four
emissions are (1, 2), (5, 2), (5, 4), (1, 4), the start points written in the
quadruples are (12, 6), (20, 6), (20, 12), (12, 12), and the bounds are 12 and
20 in X, 6 and 12 in Y: those of the transformed points that are written. -/
theorem prism_bounds_transformed :
    (segmentCalls (fun p => p) 0 0 0 exRect.bpath).map (fun q => (q.a0, q.a1)) =
      [(1, 2), (5, 2), (5, 4), (1, 4)] ∧
    (segmentCalls exTf 0 0 0 exRect.bpath).map (fun q => (q.a0, q.a1)) =
      [(12, 6), (20, 6), (20, 12), (12, 12)] ∧
    (prism exDstr ⟨0, 0, 0, "", []⟩ "rect1" exTf exRect).cminx = 12 ∧
    (prism exDstr ⟨0, 0, 0, "", []⟩ "rect1" exTf exRect).cmaxx = 20 ∧
    (prism exDstr ⟨0, 0, 0, "", []⟩ "rect1" exTf exRect).cminy = 6 ∧
    (prism exDstr ⟨0, 0, 0, "", []⟩ "rect1" exTf exRect).cmaxy = 12 := by
  refine ⟨?_, ?_, ?_, ?_, ?_, ?_⟩
  · simp [segmentCalls, exRect, NArtBpath.c]
  · rw [exRect_calls]; rfl
  · rw [prism_cminx, exRect_calls]; norm_num [List.foldl, bignum]
  · rw [prism_cmaxx, exRect_calls]; norm_num [List.foldl, bignum]
  · rw [prism_cminy, exRect_calls]; norm_num [List.foldl, bignum]
  · rw [prism_cmaxy, exRect_calls]; norm_num [List.foldl, bignum]

/-- C14 (amended): the bounds of a shape are accumulated from the running
point as it is written at the front of each quadruple, which is a transformed
point (`lastx = x3`, with `x3` taken behind the multiplication by the
transform): the prism holds the records of `segmentCalls`, and the min and max
X and Y are, starting from 1000000 and -1000000, the min and max of the first
point of every record. -/
theorem prism_bounds_start_points (dstr : ℚ → String) (st : PovOutput) (id : String)
    (tf : Point → Point) (curve : SPCurve) :
    (prism dstr st id tf curve).st.outbuf = st.outbuf ++
      ("/*###################################################\n" ++
      (vsnprintf 4096 ("### PRISM:  " ++ id ++ "\n") ++
      ("###################################################*/\n" ++
      (vsnprintf 4096 ("#declare " ++ id ++ " = prism \x7b\n") ++
      ("    linear_sweep\n    bezier_spline\n    1.0, //top\n    0.0, //bottom\n" ++
      (vsnprintf 4096 ("    " ++ fmt_d (countSegments 0 curve.bpath * 4) ++ " //nr points\n") ++
      concat ((segmentCalls tf 0 0 0 curve.bpath).map
        (Quadruple.text dstr (countSegments 0 curve.bpath))))))))) ∧
    (prism dstr st id tf curve).cminx =
      ((segmentCalls tf 0 0 0 curve.bpath).map Quadruple.a0).foldl min bignum ∧
    (prism dstr st id tf curve).cmaxx =
      ((segmentCalls tf 0 0 0 curve.bpath).map Quadruple.a0).foldl max (-bignum) ∧
    (prism dstr st id tf curve).cminy =
      ((segmentCalls tf 0 0 0 curve.bpath).map Quadruple.a1).foldl min bignum ∧
    (prism dstr st id tf curve).cmaxy =
      ((segmentCalls tf 0 0 0 curve.bpath).map Quadruple.a1).foldl max (-bignum) := by
  refine ⟨by rw [prism_st], ?_, ?_, ?_, ?_⟩
  · rw [prism_cminx, List.foldl_map]
  · rw [prism_cmaxx, List.foldl_map]
  · rw [prism_cminy, List.foldl_map]
  · rw [prism_cmaxy, List.foldl_map]

/-- C15, as stated, fails: for a curve of a move to (1, 2), a line to (5, 2),
a move to (7, 7) and a line to (9, 9), the segment behind the second move
starts at T(7, 7) = (24, 21), the point of the move, and not at
T(5, 2) = (20, 6), the running point before the move, where the walk as stated
starts it. -/
theorem prism_two_strokes_start :
    segmentCalls exTf 0 0 0 exTwoStrokes.bpath =
      [⟨0, 12, 6, 12, 6, 20, 6, 20, 6⟩, ⟨1, 24, 21, 24, 21, 28, 27, 28, 27⟩] ∧
    exTf ⟨5, 2⟩ = ⟨20, 6⟩ ∧ exTf ⟨7, 7⟩ = ⟨24, 21⟩ ∧
    walkAsStated exTf 0 ⟨0, 0⟩ exTwoStrokes.bpath =
      [⟨0, 0, 0, 0, 0, 20, 6, 20, 6⟩, ⟨1, 20, 6, 20, 6, 28, 27, 28, 27⟩] := by
  refine ⟨exTwoStrokes_calls, ?_, ?_, ?_⟩
  · simp [exTf]; norm_num
  · simp [exTf]; norm_num
  · simp [walkAsStated, exTwoStrokes, exTf, NArtBpath.c]
    norm_num

/-- C15 (amended): a move command emits no segment (the exporter and the
record number stay as they are) and sets the running point to its own
transformed point; the segment emitted right behind a move starts at that
point, so segments do not chain across the boundaries of sub-paths. -/
theorem curveStep_move (dstr : ℚ → String) (tf : Point → Point) (n : Int) (v : CurveVars)
    (bp next : NArtBpath) (hm : bp.code = NR_MOVETO ∨ bp.code = NR_MOVETO_OPEN)
    (hn : next.code = NR_LINETO ∨ next.code = NR_CURVETO) :
    (curveStep dstr tf n v bp).st = v.st ∧
    (curveStep dstr tf n v bp).segmentNr = v.segmentNr ∧
    (curveStep dstr tf n v bp).lastx = (tf (bp.c 3)).x ∧
    (curveStep dstr tf n v bp).lasty = (tf (bp.c 3)).y ∧
    (∃ q : Quadruple, segmentCalls tf v.segmentNr v.lastx v.lasty [bp, next] = [q] ∧
      q.segNr = v.segmentNr ∧ q.a0 = (tf (bp.c 3)).x ∧ q.a1 = (tf (bp.c 3)).y ∧
      (curveLoop dstr tf n v [bp, next]).st.outbuf = v.st.outbuf ++ Quadruple.text dstr n q) := by
  have hst : (curveStep dstr tf n v bp).st = v.st := by
    rcases hm with h | h <;> simp [curveStep, h]
  have hnr : (curveStep dstr tf n v bp).segmentNr = v.segmentNr := by
    rcases hm with h | h <;> simp [curveStep, h]
  refine ⟨hst, hnr, curveStep_lastx dstr tf n v bp, curveStep_lasty dstr tf n v bp, ?_⟩
  have hcalls : segmentCalls tf v.segmentNr v.lastx v.lasty [bp, next] =
      segmentCalls tf v.segmentNr (tf (bp.c 3)).x (tf (bp.c 3)).y [next] := by
    rcases hm with h | h <;> simp [segmentCalls, h]
  rcases hn with h | h
  · refine ⟨⟨v.segmentNr, (tf (bp.c 3)).x, (tf (bp.c 3)).y, (tf (bp.c 3)).x, (tf (bp.c 3)).y,
      (tf (next.c 3)).x, (tf (next.c 3)).y, (tf (next.c 3)).x, (tf (next.c 3)).y⟩, ?_, rfl, rfl,
      rfl, ?_⟩
    · rw [hcalls]; simp [segmentCalls, h]
    · rw [curveLoop_st, hcalls]; simp [segmentCalls, h, concat]
  · refine ⟨⟨v.segmentNr, (tf (bp.c 3)).x, (tf (bp.c 3)).y, (tf (next.c 1)).x, (tf (next.c 1)).y,
      (tf (next.c 2)).x, (tf (next.c 2)).y, (tf (next.c 3)).x, (tf (next.c 3)).y⟩, ?_, rfl, rfl,
      rfl, ?_⟩
    · rw [hcalls]; simp [segmentCalls, h]
    · rw [curveLoop_st, hcalls]; simp [segmentCalls, h, concat]

/-- C15 (amended) at a move to (7, 7), followed by a line to (9, 9), that
finds the running point at (20, 6): behind the move the running point is
T(7, 7) = (24, 21). -/
theorem curveStep_move_witness :
    (⟨NR_MOVETO, 0, 0, 0, 0, 7, 7⟩ : NArtBpath).code = NR_MOVETO ∧
    (curveStep exDstr exTf 2
      ⟨⟨0, 0, 0, "", []⟩, 1, bignum, -bignum, bignum, -bignum, 20, 6⟩
      ⟨NR_MOVETO, 0, 0, 0, 0, 7, 7⟩).lastx = 24 ∧
    (curveStep exDstr exTf 2
      ⟨⟨0, 0, 0, "", []⟩, 1, bignum, -bignum, bignum, -bignum, 20, 6⟩
      ⟨NR_MOVETO, 0, 0, 0, 0, 7, 7⟩).lasty = 21 := by
  have key := curveStep_move exDstr exTf 2
    ⟨⟨0, 0, 0, "", []⟩, 1, bignum, -bignum, bignum, -bignum, 20, 6⟩
    ⟨NR_MOVETO, 0, 0, 0, 0, 7, 7⟩ ⟨NR_LINETO, 0, 0, 0, 0, 9, 9⟩ (Or.inl rfl) (Or.inl rfl)
  refine ⟨rfl, ?_, ?_⟩
  · rw [key.2.2.1]; norm_num [exTf, NArtBpath.c]
  · rw [key.2.2.2.1]; norm_num [exTf, NArtBpath.c]

/-- C16: the prism of a shape declares as its number of points 4 times the
number of records written into it, and every record is followed by a comma and
a newline, except the last one, which is followed by a newline alone. -/
theorem prism_point_count (dstr : ℚ → String) (st : PovOutput) (id : String)
    (tf : Point → Point) (curve : SPCurve) :
    (prism dstr st id tf curve).st.outbuf = st.outbuf ++
      ("/*###################################################\n" ++
      (vsnprintf 4096 ("### PRISM:  " ++ id ++ "\n") ++
      ("###################################################*/\n" ++
      (vsnprintf 4096 ("#declare " ++ id ++ " = prism \x7b\n") ++
      ("    linear_sweep\n    bezier_spline\n    1.0, //top\n    0.0, //bottom\n" ++
      (vsnprintf 4096 ("    " ++
          fmt_d (((segmentCalls tf 0 0 0 curve.bpath).length : Int) * 4) ++ " //nr points\n") ++
      concat ((segmentCalls tf 0 0 0 curve.bpath).enum.map (fun iq =>
        (segment dstr ⟨0, 0, 0, "", []⟩ iq.2.segNr iq.2.a0 iq.2.a1 iq.2.b0 iq.2.b1 iq.2.c0 iq.2.c1
            iq.2.d0 iq.2.d1).outbuf ++
          (if iq.1 + 1 < (segmentCalls tf 0 0 0 curve.bpath).length then ",\n"
            else "\n"))))))))) := by
  have hc : countSegments 0 curve.bpath = ((segmentCalls tf 0 0 0 curve.bpath).length : Int) := by
    rw [countSegments_eq tf curve.bpath 0 0 0 0, zero_add]
  have hcomma : vsnprintf 4096 ",\n" = ",\n" := by decide
  have hnl : vsnprintf 4096 "\n" = "\n" := by decide
  have hmap := segmentCalls_map_enum tf
    (fun i q => (segment dstr ⟨0, 0, 0, "", []⟩ q.segNr q.a0 q.a1 q.b0 q.b1 q.c0 q.c1
        q.d0 q.d1).outbuf ++
      (if i + 1 < ((segmentCalls tf 0 0 0 curve.bpath).length : Int) then ",\n" else "\n"))
    curve.bpath 0 0 0
  simp only [Nat.cast_zero] at hmap
  rw [prism_st, hc]
  have htext : (segmentCalls tf 0 0 0 curve.bpath).map
      (Quadruple.text dstr ((segmentCalls tf 0 0 0 curve.bpath).length : Int)) =
      (segmentCalls tf 0 0 0 curve.bpath).enum.map (fun iq =>
        (segment dstr ⟨0, 0, 0, "", []⟩ iq.2.segNr iq.2.a0 iq.2.a1 iq.2.b0 iq.2.b1 iq.2.c0 iq.2.c1
            iq.2.d0 iq.2.d1).outbuf ++
          (if iq.1 + 1 < (segmentCalls tf 0 0 0 curve.bpath).length then ",\n"
            else "\n")) := by
    have h1 : (segmentCalls tf 0 0 0 curve.bpath).map
        (Quadruple.text dstr ((segmentCalls tf 0 0 0 curve.bpath).length : Int)) =
        (segmentCalls tf 0 0 0 curve.bpath).map (fun q =>
          (segment dstr ⟨0, 0, 0, "", []⟩ q.segNr q.a0 q.a1 q.b0 q.b1 q.c0 q.c1
            q.d0 q.d1).outbuf ++
          (if q.segNr + 1 < ((segmentCalls tf 0 0 0 curve.bpath).length : Int) then ",\n"
            else "\n")) := by
      apply List.map_congr_left
      intro q _
      unfold Quadruple.text
      rw [hcomma, hnl]
    rw [h1, hmap, List.enum]
    apply List.map_congr_left
    intro iq _
    have hiff : ((iq.1 : Int) + 1 < ((segmentCalls tf 0 0 0 curve.bpath).length : Int)) ↔
        (iq.1 + 1 < (segmentCalls tf 0 0 0 curve.bpath).length) := by
      constructor <;> intro h <;> omega
    simp only [hiff]
  rw [htext]

/-- C17: the bounds take in the start points of emitted segments only. For a
shape of a move to `p` and a single line to `q`, with T(p) between -1000000
and 1000000 in both coordinates, the one emitted segment goes from T(p) to
T(q), and the bounds are T(p) in both directions, whatever `q` is: `MIN_X` and
`MAX_X` are T(p).x, `MIN_Y` and `MAX_Y` are T(p).y, `WIDTH` and `HEIGHT`
are 0. -/
theorem stroke_bounds (dstr : ℚ → String) (st : PovOutput) (id : String) (shape : SPObject)
    (tf : Point → Point) (p q : Point)
    (h : -bignum ≤ (tf p).x ∧ (tf p).x ≤ bignum ∧ -bignum ≤ (tf p).y ∧ (tf p).y ≤ bignum) :
    segmentCalls tf 0 0 0 (stroke p q).bpath =
      [⟨0, (tf p).x, (tf p).y, (tf p).x, (tf p).y, (tf q).x, (tf q).y, (tf q).x, (tf q).y⟩] ∧
    (prism dstr st id tf (stroke p q)).cminx = (tf p).x ∧
    (prism dstr st id tf (stroke p q)).cmaxx = (tf p).x ∧
    (prism dstr st id tf (stroke p q)).cminy = (tf p).y ∧
    (prism dstr st id tf (stroke p q)).cmaxy = (tf p).y ∧
    ∃ pre post : String, shapeText dstr id shape tf (stroke p q) = pre ++
      (vsnprintf 4096 ("#declare " ++ id ++ "_MIN_X    = " ++ dstr (tf p).x ++ ";\n") ++
      (vsnprintf 4096 ("#declare " ++ id ++ "_CENTER_X = " ++
        dstr (((tf p).x + (tf p).x) / 2) ++ ";\n") ++
      (vsnprintf 4096 ("#declare " ++ id ++ "_MAX_X    = " ++ dstr (tf p).x ++ ";\n") ++
      (vsnprintf 4096 ("#declare " ++ id ++ "_WIDTH    = " ++ dstr 0 ++ ";\n") ++
      (vsnprintf 4096 ("#declare " ++ id ++ "_MIN_Y    = " ++ dstr (tf p).y ++ ";\n") ++
      (vsnprintf 4096 ("#declare " ++ id ++ "_CENTER_Y = " ++
        dstr (((tf p).y + (tf p).y) / 2) ++ ";\n") ++
      (vsnprintf 4096 ("#declare " ++ id ++ "_MAX_Y    = " ++ dstr (tf p).y ++ ";\n") ++
      (vsnprintf 4096 ("#declare " ++ id ++ "_HEIGHT   = " ++ dstr 0 ++ ";\n") ++
        post)))))))) := by
  obtain ⟨hx, hx', hy, hy'⟩ := h
  have b1 : ∀ s : PovOutput, (prism dstr s id tf (stroke p q)).cminx = (tf p).x := by
    intro s; rw [prism_cminx, stroke_calls]; simpa [List.foldl] using hx'
  have b2 : ∀ s : PovOutput, (prism dstr s id tf (stroke p q)).cmaxx = (tf p).x := by
    intro s; rw [prism_cmaxx, stroke_calls]; simpa [List.foldl] using hx
  have b3 : ∀ s : PovOutput, (prism dstr s id tf (stroke p q)).cminy = (tf p).y := by
    intro s; rw [prism_cminy, stroke_calls]; simpa [List.foldl] using hy'
  have b4 : ∀ s : PovOutput, (prism dstr s id tf (stroke p q)).cmaxy = (tf p).y := by
    intro s; rw [prism_cmaxy, stroke_calls]; simpa [List.foldl] using hy
  refine ⟨stroke_calls tf p q, b1 st, b2 st, b3 st, b4 st, ?_⟩
  obtain ⟨pre, post, ht⟩ := shapeText_bounds dstr id shape tf (stroke p q)
  rw [b1, b2, b3, b4, sub_self, sub_self] at ht
  exact ⟨pre, post, ht⟩

/-- C17 at the move to (1, 2) and the line to (5, 4), which differ in both
coordinates: the segment goes from (12, 6) to (20, 12), and both bounds are 12
in X and 6 in Y. -/
theorem stroke_bounds_witness :
    (-bignum ≤ (exTf ⟨1, 2⟩).x ∧ (exTf ⟨1, 2⟩).x ≤ bignum ∧ -bignum ≤ (exTf ⟨1, 2⟩).y ∧
      (exTf ⟨1, 2⟩).y ≤ bignum) ∧
    exTf ⟨1, 2⟩ = ⟨12, 6⟩ ∧ exTf ⟨5, 4⟩ = ⟨20, 12⟩ ∧
    (prism exDstr ⟨0, 0, 0, "", []⟩ "stroke" exTf (stroke ⟨1, 2⟩ ⟨5, 4⟩)).cminx = 12 ∧
    (prism exDstr ⟨0, 0, 0, "", []⟩ "stroke" exTf (stroke ⟨1, 2⟩ ⟨5, 4⟩)).cmaxx = 12 ∧
    (prism exDstr ⟨0, 0, 0, "", []⟩ "stroke" exTf (stroke ⟨1, 2⟩ ⟨5, 4⟩)).cminy = 6 ∧
    (prism exDstr ⟨0, 0, 0, "", []⟩ "stroke" exTf (stroke ⟨1, 2⟩ ⟨5, 4⟩)).cmaxy = 6 := by
  have h : -bignum ≤ (exTf ⟨1, 2⟩).x ∧ (exTf ⟨1, 2⟩).x ≤ bignum ∧ -bignum ≤ (exTf ⟨1, 2⟩).y ∧
      (exTf ⟨1, 2⟩).y ≤ bignum := by
    norm_num [exTf, bignum]
  have key := stroke_bounds exDstr ⟨0, 0, 0, "", []⟩ "stroke" exRectShape exTf ⟨1, 2⟩ ⟨5, 4⟩ h
  have e1 : (exTf ⟨1, 2⟩).x = 12 := by norm_num [exTf]
  have e2 : (exTf ⟨1, 2⟩).y = 6 := by norm_num [exTf]
  refine ⟨h, ?_, ?_, ?_, ?_, ?_, ?_⟩
  · simp [exTf]; norm_num
  · simp [exTf]; norm_num
  · rw [key.2.1, e1]
  · rw [key.2.2.1, e1]
  · rw [key.2.2.2.1, e2]
  · rw [key.2.2.2.2.1, e2]

/-- C18: `doCurves` and `saveDocument` give the same result for any two
document arguments; what `doCurves` computes is determined by the active
document, whose tree it walks and whose map from nodes to objects it asks. -/
theorem doCurves_ignores_doc (dstr : ℚ → String) (VERSION created : String)
    (active : SPDocument) (fs : FileSystem) (st : PovOutput) (doc1 doc2 : SPDocument)
    (uri : String) :
    doCurves dstr active st doc1 = doCurves dstr active st doc2 ∧
    saveDocument dstr VERSION created active fs st doc1 uri =
      saveDocument dstr VERSION created active fs st doc2 uri ∧
    doCurves dstr active st doc1 =
      (if (nodeLoop dstr active st (findElementsByTagName [] active.rroot none)).st.povShapes.length
          > 0
        then doUnion dstr (nodeLoop dstr active st (findElementsByTagName [] active.rroot none))
        else (nodeLoop dstr active st (findElementsByTagName [] active.rroot none)).st) := by
  refine ⟨rfl, rfl, doCurves_eq dstr active st doc1⟩

/-- C18 at two different document arguments, with the rectangle document
active. -/
theorem doCurves_ignores_doc_witness :
    (doCurves exDstr exRectDoc ⟨0, 0, 0, "", []⟩ exGroupDoc).povShapes =
      (doCurves exDstr exRectDoc ⟨0, 0, 0, "", []⟩ exTwinDoc).povShapes := by
  rw [(doCurves_ignores_doc exDstr "0.45" "" exRectDoc exOpenFs ⟨0, 0, 0, "", []⟩ exGroupDoc
    exTwinDoc "out.pov").1]

end PovOut
